import Mathlib

/-!
# QmlProfiler model manager

A shallow embedding of `src/plugins/qmlprofiler/qmlprofilermodelmanager.cpp`:
the trace window (`QmlProfilerTraceTime`), the pipeline state machine
(`QmlProfilerModelManager::setState` and the calls that drive it), the feature
sets and the entry points that accept events.

Conventions of the embedding.

* `qint64` values are integers; the two arithmetic expressions of the file
  (`endTime() - startTime()` and `startTime + duration()`) are wrapped into the
  64-bit two's-complement range by `wrapQint64`.
* `quint64` feature masks are natural numbers with the bitwise operations of `Nat`.
* `QTC_ASSERT(cond, action)` logs a line and runs `action` when `cond` is false and
  does nothing otherwise.  In the methods of the manager the logged line is kept as
  an observation `softAssert line`, `line` being the source line of the assertion.
* `Q_ASSERT(cond)` expands to nothing in a release build (`QT_NO_DEBUG`); the
  embedding follows the release build, i.e. the statements after the assertion.  The
  condition of the assertion of `setTime` is `setTimeAssertion`, and
  `setTimeWithAssertions` is `setTime` in a build that keeps the assertion.
* A signal emission is kept as an observation, in order of emission.  Slots connected
  to the signals belong to the consumers and are outside the embedding.
-/

namespace QmlProfiler

/-! ## Machine integers -/

/-- Two's-complement wrap of an integer into the range of `qint64`. -/
def wrapQint64 (x : Int) : Int := (x + 2 ^ 63) % 2 ^ 64 - 2 ^ 63

/-- The value is representable as a `qint64`. -/
def isQint64 (x : Int) : Prop := -(2 ^ 63) ≤ x ∧ x < 2 ^ 63

instance (x : Int) : Decidable (isQint64 x) := by
  unfold isQint64; infer_instance

/-! ## Trace window: `QmlProfilerTraceTime` -/

/-- The two members of `QmlProfilerTraceTime`; the constructor sets both to `-1`. -/
structure QmlProfilerTraceTime where
  m_startTime : Int
  m_endTime : Int
deriving DecidableEq, Repr

namespace QmlProfilerTraceTime

/-- `QmlProfilerTraceTime::QmlProfilerTraceTime`. -/
def create : QmlProfilerTraceTime := { m_startTime := -1, m_endTime := -1 }

/-- `QmlProfilerTraceTime::startTime`. -/
def startTime (tt : QmlProfilerTraceTime) : Int := tt.m_startTime

/-- `QmlProfilerTraceTime::endTime`. -/
def endTime (tt : QmlProfilerTraceTime) : Int := tt.m_endTime

/-- `QmlProfilerTraceTime::duration`: `endTime() - startTime()` in `qint64`. -/
def duration (tt : QmlProfilerTraceTime) : Int := wrapQint64 (tt.endTime - tt.startTime)

/-- `QmlProfilerTraceTime::setTime`, the statements after `Q_ASSERT(startTime <= endTime)`. -/
def setTime (tt : QmlProfilerTraceTime) (startTime endTime : Int) : QmlProfilerTraceTime :=
  if startTime ≠ tt.m_startTime ∨ endTime ≠ tt.m_endTime then
    { m_startTime := startTime, m_endTime := endTime }
  else tt

/-- `QmlProfilerTraceTime::clear`. -/
def clear (tt : QmlProfilerTraceTime) : QmlProfilerTraceTime := tt.setTime (-1) (-1)

/-- `QmlProfilerTraceTime::decreaseStartTime`. The inner
`QTC_ASSERT(m_endTime >= m_startTime, m_endTime = m_startTime)` resets the end when it
lies before the new start. -/
def decreaseStartTime (tt : QmlProfilerTraceTime) (time : Int) : QmlProfilerTraceTime :=
  if tt.m_startTime > time ∨ tt.m_startTime = -1 then
    let tt1 : QmlProfilerTraceTime := { tt with m_startTime := time }
    if tt1.m_endTime = -1 then { tt1 with m_endTime := tt1.m_startTime }
    else if tt1.m_endTime ≥ tt1.m_startTime then tt1
    else { tt1 with m_endTime := tt1.m_startTime }
  else tt

/-- `QmlProfilerTraceTime::increaseEndTime`. The inner
`QTC_ASSERT(m_endTime >= m_startTime, m_startTime = m_endTime)` resets the start when it
lies after the new end. -/
def increaseEndTime (tt : QmlProfilerTraceTime) (time : Int) : QmlProfilerTraceTime :=
  if tt.m_endTime < time ∨ tt.m_endTime = -1 then
    let tt1 : QmlProfilerTraceTime := { tt with m_endTime := time }
    if tt1.m_startTime = -1 then { tt1 with m_startTime := tt1.m_endTime }
    else if tt1.m_endTime ≥ tt1.m_startTime then tt1
    else { tt1 with m_startTime := tt1.m_endTime }
  else tt

end QmlProfilerTraceTime

/-! ## Event store and notes store

`QmlProfilerDataModel` and `QmlProfilerNotesModel` are declared outside the embedded
file; the manager only calls them. -/

/-- Modelled from the spec: the enumerators of `Message` that the manager and the
scenarios name (the header declaring the enumeration is missing); every other
enumerator is `other` with its number. -/
inductive Message where
  | RangeStart
  | DebugMessage
  | other (code : Nat)
deriving DecidableEq, Repr

/-- Modelled from the spec: the enumerators of `RangeType` that the manager and the
scenarios name (the header declaring the enumeration is missing); every other
enumerator is `other` with its number. -/
inductive RangeType where
  | Javascript
  | MaximumRangeType
  | other (code : Nat)
deriving DecidableEq, Repr

/-- Modelled from the spec: `SourceLocation` (the class `QmlEventLocation` is missing). -/
structure QmlEventLocation where
  filename : String
  line : Int
  column : Int
deriving DecidableEq, Repr

/-- Modelled from the spec: `EventType` (the class `QmlEventType` is missing). -/
structure QmlEventType where
  message : Message
  rangeType : RangeType
  detailType : Int
  displayName : String
  data : String
  location : QmlEventLocation
deriving DecidableEq, Repr

/-- Modelled from the spec: `Event` (the class `QmlEvent` is missing); `payload` holds
the five numeric data fields. -/
structure QmlEvent where
  typeIndex : Nat
  startTime : Int
  duration : Int
  payload : List Int
  text : Option String
deriving DecidableEq, Repr

/-- Modelled from the spec: the state of the `EventStore` (the class
`QmlProfilerDataModel` is missing): the list of event types and the append-only list
of events. -/
structure QmlProfilerDataModel where
  eventTypes : List QmlEventType
  eventList : List QmlEvent
deriving DecidableEq, Repr

namespace QmlProfilerDataModel

/-- Modelled from the spec: the store of a new manager (the constructor of
`QmlProfilerDataModel` is missing) holds no type and no event. -/
def create : QmlProfilerDataModel := { eventTypes := [], eventList := [] }

/-- Modelled from the spec: `EventStore.addEvent` (`QmlProfilerDataModel::addEvent` is
missing) appends an event and interns or creates its type, the identity of a type
being the tuple `(message, rangeType, detailType, displayName, data, location)`.  The
store has no access to the pipeline state: it appends whenever it is called. -/
def addEvent (model : QmlProfilerDataModel) (message : Message) (rangeType : RangeType)
    (detailType : Int) (startTime length : Int) (data : String)
    (location : QmlEventLocation) (ndata1 ndata2 ndata3 ndata4 ndata5 : Int) :
    QmlProfilerDataModel :=
  let type : QmlEventType :=
    { message := message, rangeType := rangeType, detailType := detailType,
      displayName := String.mk [], data := data, location := location }
  let types := if type ∈ model.eventTypes then model.eventTypes else model.eventTypes ++ [type]
  let event : QmlEvent :=
    { typeIndex := types.indexOf type, startTime := startTime, duration := length,
      payload := [ndata1, ndata2, ndata3, ndata4, ndata5], text := none }
  { eventTypes := types, eventList := model.eventList ++ [event] }

/-- Modelled from the spec: `EventStore.clear` (`QmlProfilerDataModel::clear` is
missing) empties events and types. -/
def clear (_model : QmlProfilerDataModel) : QmlProfilerDataModel :=
  { eventTypes := [], eventList := [] }

/-- Modelled from the spec: `QmlProfilerDataModel::isEmpty` is missing; the store is
empty when it holds no event. -/
def isEmpty (model : QmlProfilerDataModel) : Bool := model.eventList.isEmpty

/-- Modelled from the spec: `EventStore.processData`
(`QmlProfilerDataModel::processData` is missing) sorts the events by `startTime`,
keeping the insertion order of events with equal start times. -/
def processData (model : QmlProfilerDataModel) : QmlProfilerDataModel :=
  { model with
    eventList := model.eventList.insertionSort (fun a b => a.startTime ≤ b.startTime) }

end QmlProfilerDataModel

/-- Modelled from the spec: `Note` (the note type of `QmlProfilerNotesModel` is missing). -/
structure Note where
  typeIndex : Nat
  eventIndex : Nat
  startTime : Int
  duration : Int
  text : String
deriving DecidableEq, Repr

/-- Modelled from the spec: the state of the `NotesStore` (the class
`QmlProfilerNotesModel` is missing): the persisted notes and the notes bound to the
current events. -/
structure QmlProfilerNotesModel where
  notes : List Note
  bound : List Note
deriving DecidableEq, Repr

namespace QmlProfilerNotesModel

/-- Modelled from the spec: the notes store of a new manager (the constructor of
`QmlProfilerNotesModel` is missing) holds no note. -/
def create : QmlProfilerNotesModel := { notes := [], bound := [] }

/-- Modelled from the spec: `QmlProfilerNotesModel::clear` is missing; after `clear` of
the manager all containers are empty. -/
def clear (_notesModel : QmlProfilerNotesModel) : QmlProfilerNotesModel :=
  { notes := [], bound := [] }

/-- Modelled from the spec: `NotesStore.loadData` (`QmlProfilerNotesModel::loadData` is
missing) re-binds the persisted notes to the current events by
`(typeIndex, startTime, duration)` and drops the notes whose anchor matches no event. -/
def loadData (notesModel : QmlProfilerNotesModel) (events : List QmlEvent) :
    QmlProfilerNotesModel :=
  { notesModel with
    bound := notesModel.notes.filter (fun n =>
      events.any (fun e =>
        decide (e.typeIndex = n.typeIndex ∧ e.startTime = n.startTime ∧
          e.duration = n.duration))) }

end QmlProfilerNotesModel

/-! ## The manager -/

/-- Modelled from the spec: `PipelineState` (the header declaring
`QmlProfilerModelManager::State` is missing). -/
inductive State where
  | Empty
  | AcquiringData
  | ProcessingData
  | ClearingData
  | Done
deriving DecidableEq, Repr

/-- `MaximumProfileFeature`: the number of entries of `ProfileFeatureNames`, by the
`Q_STATIC_ASSERT` that follows the table. -/
def MaximumProfileFeature : Nat := 12

/-- An `EventLoader` callback, identified by a number. -/
abbrev EventLoader := Nat

/-- A `Finalizer` callback, identified by a number. -/
abbrev Finalizer := Nat

/-- What a method of the manager lets the outside see: the signals it emits and the
lines logged by failed `QTC_ASSERT`s. -/
inductive Observation where
  | softAssert (line : Nat)
  | stateChanged
  | error (message : String)
  | availableFeaturesChanged (features : Nat)
  | visibleFeaturesChanged (features : Nat)
  | recordedFeaturesChanged (features : Nat)
  | loadFinished
  | saveFinished
deriving DecidableEq, Repr

/-- `QmlProfilerModelManager::QmlProfilerModelManagerPrivate`.  `eventLoaders` is the
`QHash<ProfileFeature, QVector<EventLoader>>`, a feature without entry having the
empty vector. -/
structure QmlProfilerModelManagerPrivate where
  model : QmlProfilerDataModel
  notesModel : QmlProfilerNotesModel
  state : State
  traceTime : QmlProfilerTraceTime
  numRegisteredModels : Int
  availableFeatures : Nat
  visibleFeatures : Nat
  recordedFeatures : Nat
  eventLoaders : Nat → List EventLoader
  finalizers : List Finalizer

/-- The manager: its private data `d` and the observations made of it so far. -/
structure QmlProfilerModelManager where
  d : QmlProfilerModelManagerPrivate
  observed : List Observation

namespace QmlProfilerModelManager

/-- `QmlProfilerModelManager::QmlProfilerModelManager`. -/
def create : QmlProfilerModelManager :=
  { d :=
      { model := QmlProfilerDataModel.create
        notesModel := QmlProfilerNotesModel.create
        state := State.Empty
        traceTime := QmlProfilerTraceTime.create
        numRegisteredModels := 0
        availableFeatures := 0
        visibleFeatures := 0
        recordedFeatures := 0
        eventLoaders := fun _ => []
        finalizers := [] }
    observed := [] }

/-- An `emit`, or the line logged by a failed `QTC_ASSERT`. -/
def observe (m : QmlProfilerModelManager) (o : Observation) : QmlProfilerModelManager :=
  { m with observed := m.observed ++ [o] }

/-- `QTC_ASSERT(cond, /**/)`: a failed condition is logged and the method goes on. -/
def softAssert (m : QmlProfilerModelManager) (cond : Bool) (line : Nat) :
    QmlProfilerModelManager :=
  if cond then m else m.observe (Observation.softAssert line)

/-- `QmlProfilerModelManager::state`. -/
def state (m : QmlProfilerModelManager) : State := m.d.state

/-- `QmlProfilerModelManager::traceTime`. -/
def traceTime (m : QmlProfilerModelManager) : QmlProfilerTraceTime := m.d.traceTime

/-- `QmlProfilerModelManager::isEmpty`. -/
def isEmpty (m : QmlProfilerModelManager) : Bool := m.d.model.isEmpty

/-- `QmlProfilerModelManager::availableFeatures`. -/
def availableFeatures (m : QmlProfilerModelManager) : Nat := m.d.availableFeatures

/-- `QmlProfilerModelManager::visibleFeatures`. -/
def visibleFeatures (m : QmlProfilerModelManager) : Nat := m.d.visibleFeatures

/-- `QmlProfilerModelManager::recordedFeatures`. -/
def recordedFeatures (m : QmlProfilerModelManager) : Nat := m.d.recordedFeatures

/-- The last two statements of `setState`: `d->state = state; emit stateChanged();`. -/
def storeState (m : QmlProfilerModelManager) (state : State) : QmlProfilerModelManager :=
  ({ m with d := { m.d with state := state } } : QmlProfilerModelManager).observe
    Observation.stateChanged

/-- `QmlProfilerModelManager::setState`.  The `default:` branch of the `switch` is not
reached by an enumerator of `State`. -/
def setState (m : QmlProfilerModelManager) (state : State) : QmlProfilerModelManager :=
  if m.d.state = state then m
  else
    match state with
    | State.ClearingData =>
        (m.softAssert
          (decide (m.d.state = State.Done ∨ m.d.state = State.Empty ∨
            m.d.state = State.AcquiringData)) 369).storeState state
    | State.Empty => (m.softAssert m.isEmpty 373).storeState state
    | State.AcquiringData =>
        if m.d.state ≠ State.ProcessingData then m.storeState state
        else m.observe (Observation.softAssert 377)
    | State.ProcessingData =>
        if m.d.state = State.AcquiringData then m.storeState state
        else m.observe (Observation.softAssert 380)
    | State.Done =>
        if m.d.state = State.ProcessingData ∨ m.d.state = State.Empty then m.storeState state
        else m.observe (Observation.softAssert 383)

/-- `QmlProfilerModelManager::setVisibleFeatures`. -/
def setVisibleFeatures (m : QmlProfilerModelManager) (features : Nat) :
    QmlProfilerModelManager :=
  if m.d.visibleFeatures ≠ features then
    ({ m with d := { m.d with visibleFeatures := features } } : QmlProfilerModelManager).observe
      (Observation.visibleFeaturesChanged features)
  else m

/-- `QmlProfilerModelManager::setRecordedFeatures`. -/
def setRecordedFeatures (m : QmlProfilerModelManager) (features : Nat) :
    QmlProfilerModelManager :=
  if m.d.recordedFeatures ≠ features then
    ({ m with d := { m.d with recordedFeatures := features } } : QmlProfilerModelManager).observe
      (Observation.recordedFeaturesChanged features)
  else m

/-- `QmlProfilerModelManager::announceFeatures`. -/
def announceFeatures (m : QmlProfilerModelManager) (features : Nat)
    (eventLoader : EventLoader) (finalizer : Finalizer) : QmlProfilerModelManager :=
  let m1 : QmlProfilerModelManager :=
    if (features &&& m.d.availableFeatures) ≠ features then
      ({ m with d := { m.d with availableFeatures := m.d.availableFeatures ||| features } } :
        QmlProfilerModelManager).observe
        (Observation.availableFeaturesChanged (m.d.availableFeatures ||| features))
    else m
  let m2 : QmlProfilerModelManager :=
    if (features &&& m1.d.visibleFeatures) ≠ features then
      ({ m1 with d := { m1.d with visibleFeatures := m1.d.visibleFeatures ||| features } } :
        QmlProfilerModelManager).observe
        (Observation.visibleFeaturesChanged (m1.d.visibleFeatures ||| features))
    else m1
  let loaders : Nat → List EventLoader :=
    (List.range MaximumProfileFeature).foldl
      (fun h feature =>
        if (features &&& (1 <<< feature)) ≠ 0 then
          Function.update h feature (h feature ++ [eventLoader])
        else h)
      m2.d.eventLoaders
  { m2 with d := { m2.d with
      eventLoaders := loaders
      finalizers := m2.d.finalizers ++ [finalizer] } }

/-- `QmlProfilerModelManager::addQmlEvent`. -/
def addQmlEvent (m : QmlProfilerModelManager) (message : Message) (rangeType : RangeType)
    (detailType : Int) (startTime length : Int) (data : String)
    (location : QmlEventLocation) (ndata1 ndata2 ndata3 ndata4 ndata5 : Int) :
    QmlProfilerModelManager :=
  let m1 : QmlProfilerModelManager :=
    if m.d.traceTime.startTime = -1 then
      { m with d := { m.d with
          traceTime := m.d.traceTime.setTime startTime
            (wrapQint64 (startTime + m.d.traceTime.duration)) } }
    else m
  let m2 := m1.softAssert (decide (m1.state = State.AcquiringData)) 260
  { m2 with d := { m2.d with
      model := m2.d.model.addEvent message rangeType detailType startTime length data
        location ndata1 ndata2 ndata3 ndata4 ndata5 } }

/-- `QmlProfilerModelManager::addDebugMessage`; `messageType` is the `QtMsgType` passed
as the detail type. -/
def addDebugMessage (m : QmlProfilerModelManager) (timestamp : Int) (messageType : Int)
    (text : String) (location : QmlEventLocation) : QmlProfilerModelManager :=
  if m.state = State.AcquiringData then
    { m with d := { m.d with
        model := m.d.model.addEvent Message.DebugMessage RangeType.MaximumRangeType
          messageType timestamp 0 text location 0 0 0 0 0 } }
  else m

/-- `QmlProfilerModelManager::acquiringDone`. -/
def acquiringDone (m : QmlProfilerModelManager) : QmlProfilerModelManager :=
  let m1 := m.softAssert (decide (m.state = State.AcquiringData)) 275
  let m2 := m1.setState State.ProcessingData
  { m2 with d := { m2.d with model := m2.d.model.processData } }

/-- `QmlProfilerModelManager::processingDone`, called when `processData` has completed. -/
def processingDone (m : QmlProfilerModelManager) : QmlProfilerModelManager :=
  let m1 := m.softAssert (decide (m.state = State.ProcessingData)) 282
  let m2 := m1.setState State.Done
  let m3 : QmlProfilerModelManager :=
    { m2 with d := { m2.d with notesModel := m2.d.notesModel.loadData m2.d.model.eventList } }
  m3.observe Observation.loadFinished

/-- `QmlProfilerModelManager::clear`. -/
def clear (m : QmlProfilerModelManager) : QmlProfilerModelManager :=
  let m1 := m.setState State.ClearingData
  let m2 : QmlProfilerModelManager := { m1 with d := { m1.d with model := m1.d.model.clear } }
  let m3 : QmlProfilerModelManager :=
    { m2 with d := { m2.d with traceTime := m2.d.traceTime.clear } }
  let m4 : QmlProfilerModelManager :=
    { m3 with d := { m3.d with notesModel := m3.d.notesModel.clear } }
  let m5 := m4.setVisibleFeatures 0
  let m6 := m5.setRecordedFeatures 0
  m6.setState State.Empty

/-- `QmlProfilerModelManager::startAcquiring`. -/
def startAcquiring (m : QmlProfilerModelManager) : QmlProfilerModelManager :=
  m.setState State.AcquiringData

end QmlProfilerModelManager

/-! ## The producer interface as data -/

/-- The calls of the producer interface that drive the pipeline state. -/
inductive ExternalCall where
  | startAcquiring
  | acquiringDone
  | processingDone
  | clear
deriving DecidableEq, Repr

/-- The method of the manager that an external call runs. -/
def ExternalCall.run (c : ExternalCall) (m : QmlProfilerModelManager) :
    QmlProfilerModelManager :=
  match c with
  | ExternalCall.startAcquiring => m.startAcquiring
  | ExternalCall.acquiringDone => m.acquiringDone
  | ExternalCall.processingDone => m.processingDone
  | ExternalCall.clear => m.clear

/-- The transition table as the specification words it: the rows
Empty/startAcquiring, Empty/clear, AcquiringData/acquiringDone, AcquiringData/clear,
ProcessingData/processingDone and Done/clear. -/
def specTransitionRow : State → ExternalCall → Bool
  | State.Empty, ExternalCall.startAcquiring => true
  | State.Empty, ExternalCall.clear => true
  | State.AcquiringData, ExternalCall.acquiringDone => true
  | State.AcquiringData, ExternalCall.clear => true
  | State.ProcessingData, ExternalCall.processingDone => true
  | State.Done, ExternalCall.clear => true
  | _, _ => false

/-- The arguments of one call of `addQmlEvent`. -/
structure AddQmlEventCall where
  message : Message
  rangeType : RangeType
  detailType : Int
  startTime : Int
  length : Int
  data : String
  location : QmlEventLocation
  ndata1 : Int
  ndata2 : Int
  ndata3 : Int
  ndata4 : Int
  ndata5 : Int
deriving DecidableEq, Repr

/-- One call of `addQmlEvent` with the given arguments. -/
def AddQmlEventCall.run (c : AddQmlEventCall) (m : QmlProfilerModelManager) :
    QmlProfilerModelManager :=
  m.addQmlEvent c.message c.rangeType c.detailType c.startTime c.length c.data c.location
    c.ndata1 c.ndata2 c.ndata3 c.ndata4 c.ndata5

/-- A sequence of calls of `addQmlEvent`, in order of arrival. -/
def addQmlEvents (m : QmlProfilerModelManager) (calls : List AddQmlEventCall) :
    QmlProfilerModelManager :=
  calls.foldl (fun acc c => c.run acc) m

/-- The source location with empty file name, line 0 and column 0. -/
def noLocation : QmlEventLocation := { filename := String.mk [], line := 0, column := 0 }

/-- A range event that starts at `t`, as in the scenarios: `RangeStart`, `Javascript`,
detail type 0, length 0, no data. -/
def rangeEventAt (t : Int) : AddQmlEventCall :=
  { message := Message.RangeStart, rangeType := RangeType.Javascript, detailType := 0,
    startTime := t, length := 0, data := String.mk [],
    location := noLocation,
    ndata1 := 0, ndata2 := 0, ndata3 := 0, ndata4 := 0, ndata5 := 0 }

/-- The manager after `startAcquiring` on a new manager. -/
def acquiringManager : QmlProfilerModelManager :=
  QmlProfilerModelManager.create.startAcquiring

/-- The manager after `startAcquiring` and `acquiringDone` on a new manager. -/
def processingManager : QmlProfilerModelManager :=
  acquiringManager.acquiringDone

/-- The manager after the whole lifecycle `startAcquiring`, `acquiringDone`,
`processingDone` on a new manager. -/
def doneManager : QmlProfilerModelManager :=
  processingManager.processingDone

/-- A new manager on which features have been announced: mask 1 (the first feature),
loader 0, finalizer 0. -/
def announcedManager : QmlProfilerModelManager :=
  QmlProfilerModelManager.create.announceFeatures 1 0 0

/-! ## The trace window as the specification words it -/

namespace QmlProfilerTraceTime

/-- The invariant of the trace window as the specification words it: either both
bounds are `-1`, or `startTime ≤ endTime`. -/
def invariant (tt : QmlProfilerTraceTime) : Prop :=
  (tt.m_startTime = -1 ∧ tt.m_endTime = -1) ∨ tt.m_startTime ≤ tt.m_endTime

instance (tt : QmlProfilerTraceTime) : Decidable tt.invariant := by
  unfold invariant; infer_instance

/-- The condition of `Q_ASSERT(startTime <= endTime)` at the head of `setTime`. -/
def setTimeAssertion (startTime endTime : Int) : Bool := decide (startTime ≤ endTime)

/-- `QmlProfilerTraceTime::setTime` in a build that keeps `Q_ASSERT` (no `QT_NO_DEBUG`):
a false condition aborts the program, so that there is no window after the call; a true
one lets the statements of `setTime` run. -/
def setTimeWithAssertions (tt : QmlProfilerTraceTime) (startTime endTime : Int) :
    Option QmlProfilerTraceTime :=
  if setTimeAssertion startTime endTime then some (tt.setTime startTime endTime) else none

end QmlProfilerTraceTime

/-- One widening call on the trace window. -/
inductive WindowOp where
  | decreaseStartTime (time : Int)
  | increaseEndTime (time : Int)
deriving DecidableEq, Repr

/-- The argument of a widening call. -/
def WindowOp.time : WindowOp → Int
  | WindowOp.decreaseStartTime time => time
  | WindowOp.increaseEndTime time => time

/-- The method of the trace window that a widening call runs. -/
def WindowOp.run (op : WindowOp) (tt : QmlProfilerTraceTime) : QmlProfilerTraceTime :=
  match op with
  | WindowOp.decreaseStartTime time => tt.decreaseStartTime time
  | WindowOp.increaseEndTime time => tt.increaseEndTime time

/-- A sequence of widening calls, in order. -/
def applyWindowOps (tt : QmlProfilerTraceTime) (ops : List WindowOp) : QmlProfilerTraceTime :=
  ops.foldl (fun acc op => op.run acc) tt

/-! ## Feature registry, dispatch and load as data -/

namespace QmlProfilerModelManager

/-- `QmlProfilerModelManager::dispatch`: every loader registered for the feature of the
type is called with `(event, type)`, in the order of the vector.  The result lists the
calls made.  `feature` stands for `QmlEventType::feature()`, which is declared outside
the embedded file. -/
def dispatch (feature : QmlEventType → Nat) (m : QmlProfilerModelManager)
    (event : QmlEvent) (type : QmlEventType) : List (EventLoader × QmlEvent × QmlEventType) :=
  (m.d.eventLoaders (feature type)).map (fun loader => (loader, event, type))

/-- The manager at the moment `acquiringDone` calls `d->model->processData()`: after the
assertion of line 275 and `setState(ProcessingData)`. -/
def acquiringDoneAtProcessData (m : QmlProfilerModelManager) : QmlProfilerModelManager :=
  (m.softAssert (decide (m.state = State.AcquiringData)) 275).setState State.ProcessingData

/-- The text of `tr("Could not open %1 for reading.").arg(filename)`. -/
def couldNotOpenForReading (filename : String) : String :=
  "Could not open " ++ filename ++ " for reading."

/-- `QmlProfilerModelManager::load` up to the start of the reader task; `fileOpens` is
the result of `file->open(QIODevice::ReadOnly | QIODevice::Text)`. -/
def loadStart (m : QmlProfilerModelManager) (filename : String) (fileOpens : Bool) :
    QmlProfilerModelManager :=
  if fileOpens then m.clear.setState State.AcquiringData
  else
    (m.observe (Observation.error (couldNotOpenForReading filename))).observe
      Observation.loadFinished

/-- The slot that `load` connects to `QmlProfilerFileReader::error`:
`delete reader; emit error(message);`. -/
def loadReaderError (m : QmlProfilerModelManager) (message : String) :
    QmlProfilerModelManager :=
  m.observe (Observation.error message)

end QmlProfilerModelManager

/-- The arguments of one call of `announceFeatures`. -/
structure Announcement where
  features : Nat
  eventLoader : EventLoader
  finalizer : Finalizer
deriving DecidableEq, Repr

/-- One call of `announceFeatures` with the given arguments. -/
def Announcement.run (a : Announcement) (m : QmlProfilerModelManager) :
    QmlProfilerModelManager :=
  m.announceFeatures a.features a.eventLoader a.finalizer

/-- A sequence of calls of `announceFeatures`, in order. -/
def announceAll (m : QmlProfilerModelManager) (announcements : List Announcement) :
    QmlProfilerModelManager :=
  announcements.foldl (fun acc a => a.run acc) m

/-- The operations of the manager other than `clear`. -/
inductive Operation where
  | announceFeatures (features : Nat) (eventLoader : EventLoader) (finalizer : Finalizer)
  | setVisibleFeatures (features : Nat)
  | setRecordedFeatures (features : Nat)
  | startAcquiring
  | addQmlEvent (call : AddQmlEventCall)
  | addDebugMessage (timestamp messageType : Int) (text : String)
      (location : QmlEventLocation)
  | acquiringDone
  | processingDone
deriving DecidableEq, Repr

/-- The method of the manager that an operation runs. -/
def Operation.run (op : Operation) (m : QmlProfilerModelManager) : QmlProfilerModelManager :=
  match op with
  | Operation.announceFeatures features eventLoader finalizer =>
      m.announceFeatures features eventLoader finalizer
  | Operation.setVisibleFeatures features => m.setVisibleFeatures features
  | Operation.setRecordedFeatures features => m.setRecordedFeatures features
  | Operation.startAcquiring => m.startAcquiring
  | Operation.addQmlEvent call => call.run m
  | Operation.addDebugMessage timestamp messageType text location =>
      m.addDebugMessage timestamp messageType text location
  | Operation.acquiringDone => m.acquiringDone
  | Operation.processingDone => m.processingDone

/-- A new manager that has received, in state `Empty`, two events that start at 5 and
at 1. -/
def strayEventsManager : QmlProfilerModelManager :=
  addQmlEvents QmlProfilerModelManager.create [rangeEventAt 5, rangeEventAt 1]

/-! ## `load` on success and the codec tasks as data -/

/-- Modelled from the spec: `NotesStore.saveData` (`QmlProfilerNotesModel::saveData` is
missing) snapshots the notes bound to the events for serialization. -/
def QmlProfilerNotesModel.saveData (notesModel : QmlProfilerNotesModel) :
    QmlProfilerNotesModel :=
  { notesModel with notes := notesModel.bound }

/-- A task that `save` or `load` hands to `Utils::runAsync`: the writer with the data
set on it, or the reader, each with its file. -/
inductive CodecTask where
  | save (filename : String) (traceStart traceEnd duration : Int)
      (eventTypes : List QmlEventType) (events : List QmlEvent) (notes : List Note)
  | load (filename : String)
deriving DecidableEq, Repr

/-- The observation is an `error` signal. -/
def Observation.isError : Observation → Bool
  | Observation.error _ => true
  | _ => false

namespace QmlProfilerModelManager

/-- The text of `tr("Could not open %1 for writing.").arg(filename)`. -/
def couldNotOpenForWriting (filename : String) : String :=
  "Could not open " ++ filename ++ " for writing."

/-- `QmlProfilerModelManager::save` up to its return: the manager and the tasks started;
`fileOpens` is the result of `file->open(QIODevice::WriteOnly)`. -/
def save (m : QmlProfilerModelManager) (filename : String) (fileOpens : Bool) :
    QmlProfilerModelManager × List CodecTask :=
  if fileOpens then
    let m1 : QmlProfilerModelManager :=
      { m with d := { m.d with notesModel := m.d.notesModel.saveData } }
    (m1,
      [CodecTask.save filename m1.traceTime.startTime m1.traceTime.endTime
        m1.traceTime.duration m1.d.model.eventTypes m1.d.model.eventList
        m1.d.notesModel.notes])
  else
    ((m.observe (Observation.error (couldNotOpenForWriting filename))).observe
      Observation.saveFinished, [])

/-- `QmlProfilerModelManager::load` up to its return: the manager and the tasks
started. -/
def load (m : QmlProfilerModelManager) (filename : String) (fileOpens : Bool) :
    QmlProfilerModelManager × List CodecTask :=
  (m.loadStart filename fileOpens, if fileOpens then [CodecTask.load filename] else [])

end QmlProfilerModelManager

/-- A request for a codec task: `save(filename)` or `load(filename)`, with the result of
opening the file. -/
inductive CodecRequest where
  | save (filename : String) (fileOpens : Bool)
  | load (filename : String) (fileOpens : Bool)
deriving DecidableEq, Repr

/-- Whether the file of the request opens. -/
def CodecRequest.fileOpens : CodecRequest → Bool
  | CodecRequest.save _ fileOpens => fileOpens
  | CodecRequest.load _ fileOpens => fileOpens

/-- The method of the manager that a request runs. -/
def CodecRequest.run (r : CodecRequest) (m : QmlProfilerModelManager) :
    QmlProfilerModelManager × List CodecTask :=
  match r with
  | CodecRequest.save filename fileOpens => QmlProfilerModelManager.save m filename fileOpens
  | CodecRequest.load filename fileOpens => QmlProfilerModelManager.load m filename fileOpens

/-- Requests issued one after the other, none of the tasks started having finished in
between: the manager after the last request and all the tasks started. -/
def runCodecRequests :
    QmlProfilerModelManager → List CodecRequest → QmlProfilerModelManager × List CodecTask
  | m, [] => (m, [])
  | m, r :: rest =>
      ((runCodecRequests (r.run m).1 rest).1,
        (r.run m).2 ++ (runCodecRequests (r.run m).1 rest).2)

/-- The observation is a `loadFinished` or a `saveFinished` signal. -/
def Observation.isFinished : Observation → Bool
  | Observation.loadFinished => true
  | Observation.saveFinished => true
  | _ => false

/-- The largest `qint64`. -/
def maxQint64 : Int := 2 ^ 63 - 1

/-! ## Theorems -/

open QmlProfilerModelManager

/-! ### `setState`, the setters and `clear` -/

/-- The pipeline state that `setState s` leaves: the request is refused for
`AcquiringData` out of `ProcessingData`, for `ProcessingData` out of anything but
`AcquiringData`, and for `Done` out of anything but `ProcessingData` and `Empty`; it is
granted otherwise. -/
theorem setState_state (m : QmlProfilerModelManager) (s : State) :
    (m.setState s).d.state =
      if (s = State.AcquiringData ∧ m.d.state = State.ProcessingData) ∨
          (s = State.ProcessingData ∧ m.d.state ≠ State.AcquiringData) ∨
          (s = State.Done ∧ m.d.state ≠ State.ProcessingData ∧ m.d.state ≠ State.Empty)
      then m.d.state else s := by
  obtain ⟨⟨model, notes, st, tt, n, av, vis, rec, el, fin⟩, obs⟩ := m
  cases st <;> cases s <;> simp [setState, softAssert, storeState, observe]

/-- `setState` touches nothing of the private data but the pipeline state. -/
theorem setState_d (m : QmlProfilerModelManager) (s : State) :
    (m.setState s).d =
      { m.d with
        state :=
          if (s = State.AcquiringData ∧ m.d.state = State.ProcessingData) ∨
              (s = State.ProcessingData ∧ m.d.state ≠ State.AcquiringData) ∨
              (s = State.Done ∧ m.d.state ≠ State.ProcessingData ∧ m.d.state ≠ State.Empty)
          then m.d.state else s } := by
  rw [← setState_state]
  unfold setState
  cases s <;> simp only [softAssert, storeState, observe] <;> split_ifs <;> rfl

/-- `setVisibleFeatures` stores the mask and touches nothing else of the private data. -/
theorem setVisibleFeatures_d (m : QmlProfilerModelManager) (features : Nat) :
    (m.setVisibleFeatures features).d = { m.d with visibleFeatures := features } := by
  unfold setVisibleFeatures
  split_ifs with h
  · rfl
  · have h1 : m.d.visibleFeatures = features := by simpa using h
    rw [← h1]

/-- `setRecordedFeatures` stores the mask and touches nothing else of the private data. -/
theorem setRecordedFeatures_d (m : QmlProfilerModelManager) (features : Nat) :
    (m.setRecordedFeatures features).d = { m.d with recordedFeatures := features } := by
  unfold setRecordedFeatures
  split_ifs with h
  · rfl
  · have h1 : m.d.recordedFeatures = features := by simpa using h
    rw [← h1]

/-- `setTime` leaves exactly the interval it is given. -/
theorem setTime_eq (tt : QmlProfilerTraceTime) (s e : Int) :
    tt.setTime s e = { m_startTime := s, m_endTime := e } := by
  obtain ⟨a, b⟩ := tt
  unfold QmlProfilerTraceTime.setTime
  split_ifs with h
  · rfl
  · have h1 : s = a ∧ e = b := by simpa using h
    rw [h1.1, h1.2]

/-- The private data after `clear`: both stores empty, state `Empty`, window cleared,
visible and recorded features 0, the rest as before. -/
theorem clear_d (m : QmlProfilerModelManager) :
    (m.clear).d =
      { m.d with
        model := { eventTypes := [], eventList := [] }
        notesModel := { notes := [], bound := [] }
        state := State.Empty
        traceTime := { m_startTime := -1, m_endTime := -1 }
        visibleFeatures := 0
        recordedFeatures := 0 } := by
  simp [clear, setState_d, setRecordedFeatures_d, setVisibleFeatures_d,
    QmlProfilerTraceTime.clear, setTime_eq, QmlProfilerDataModel.clear,
    QmlProfilerNotesModel.clear]

/-- A `QTC_ASSERT` without action leaves the private data alone. -/
theorem softAssert_d (m : QmlProfilerModelManager) (cond : Bool) (line : Nat) :
    (m.softAssert cond line).d = m.d := by
  unfold softAssert
  split_ifs <;> rfl

/-- The pipeline state after `startAcquiring`. -/
theorem startAcquiring_state (m : QmlProfilerModelManager) :
    (m.startAcquiring).d.state =
      if m.d.state = State.ProcessingData then State.ProcessingData
      else State.AcquiringData := by
  simp only [startAcquiring, setState_state]
  by_cases h : m.d.state = State.ProcessingData <;> simp [h]

/-- The pipeline state after `acquiringDone`. -/
theorem acquiringDone_state (m : QmlProfilerModelManager) :
    (m.acquiringDone).d.state =
      if m.d.state = State.AcquiringData then State.ProcessingData else m.d.state := by
  simp only [acquiringDone, setState_state, softAssert_d]
  by_cases h : m.d.state = State.AcquiringData <;> simp [h]

/-- The pipeline state after `processingDone`. -/
theorem processingDone_state (m : QmlProfilerModelManager) :
    (m.processingDone).d.state =
      if m.d.state = State.ProcessingData ∨ m.d.state = State.Empty then State.Done
      else m.d.state := by
  simp only [processingDone, observe, setState_state, softAssert_d]
  by_cases h1 : m.d.state = State.ProcessingData
  · simp [h1]
  · by_cases h2 : m.d.state = State.Empty <;> simp [h1, h2]

/-! ### Claims C1 to C5: the pipeline state machine and `clear` -/

/-- Claim C1 is false as stated: three calls that are no row of the transition table
change the pipeline state.  `startAcquiring` in `Done` yields `AcquiringData`,
`processingDone` in `Empty` yields `Done`, and `clear` in `ProcessingData` yields
`Empty`. -/
theorem illegal_call_changes_state :
    (doneManager.d.state = State.Done ∧
      specTransitionRow State.Done ExternalCall.startAcquiring = false ∧
      (ExternalCall.startAcquiring.run doneManager).d.state = State.AcquiringData) ∧
    (QmlProfilerModelManager.create.d.state = State.Empty ∧
      specTransitionRow State.Empty ExternalCall.processingDone = false ∧
      (ExternalCall.processingDone.run QmlProfilerModelManager.create).d.state
        = State.Done) ∧
    (processingManager.d.state = State.ProcessingData ∧
      specTransitionRow State.ProcessingData ExternalCall.clear = false ∧
      (ExternalCall.clear.run processingManager).d.state = State.Empty) := by
  decide

/-- Claim C1, amended: for every pipeline state `s` among `Empty`, `AcquiringData`,
`ProcessingData`, `Done` and every external call `c` that is no row of the transition
table, the pipeline state after the call is still `s`, except for the three calls that
`setState` lets through: `startAcquiring` in `Done` yields `AcquiringData`,
`processingDone` in `Empty` yields `Done`, and `clear` in `ProcessingData` yields
`Empty`. -/
theorem illegal_call_state (m : QmlProfilerModelManager) (c : ExternalCall)
    (hs : m.d.state ≠ State.ClearingData)
    (hrow : specTransitionRow m.d.state c = false) :
    (c.run m).d.state =
      if m.d.state = State.Done ∧ c = ExternalCall.startAcquiring then State.AcquiringData
      else if m.d.state = State.Empty ∧ c = ExternalCall.processingDone then State.Done
      else if m.d.state = State.ProcessingData ∧ c = ExternalCall.clear then State.Empty
      else m.d.state := by
  cases c <;>
    simp only [ExternalCall.run, startAcquiring_state, acquiringDone_state,
      processingDone_state, clear_d] <;>
    cases hst : m.d.state <;> simp_all [specTransitionRow]

/-- Witness of the amended claim C1: `acquiringDone` on a new manager, whose state is
`Empty`, is no row of the table and leaves the state `Empty`. -/
theorem illegal_call_state_witness :
    QmlProfilerModelManager.create.d.state ≠ State.ClearingData ∧
    specTransitionRow QmlProfilerModelManager.create.d.state ExternalCall.acquiringDone
      = false ∧
    (ExternalCall.acquiringDone.run QmlProfilerModelManager.create).d.state
      = State.Empty :=
  ⟨by decide, by decide,
    (illegal_call_state QmlProfilerModelManager.create ExternalCall.acquiringDone
      (by decide) (by decide)).trans (by decide)⟩

/-- Claim C2: the legal lifecycle advances the pipeline state step by step.  From
`Empty`, `startAcquiring` yields `AcquiringData`; from `AcquiringData`, `acquiringDone`
yields `ProcessingData`; from `ProcessingData`, `processingDone` yields `Done`. -/
theorem lifecycle_steps (m : QmlProfilerModelManager) :
    (m.d.state = State.Empty → (m.startAcquiring).d.state = State.AcquiringData) ∧
    (m.d.state = State.AcquiringData → (m.acquiringDone).d.state = State.ProcessingData) ∧
    (m.d.state = State.ProcessingData → (m.processingDone).d.state = State.Done) := by
  refine ⟨fun h => ?_, fun h => ?_, fun h => ?_⟩
  · simp [startAcquiring_state, h]
  · simp [acquiringDone_state, h]
  · simp [processingDone_state, h]

/-- Witness of claim C2: the three steps in a row on a new manager end in
`Done`. -/
theorem lifecycle_steps_witness :
    QmlProfilerModelManager.create.d.state = State.Empty ∧
    (((QmlProfilerModelManager.create.startAcquiring).acquiringDone).processingDone).d.state
      = State.Done :=
  ⟨rfl,
    (lifecycle_steps _).2.2
      ((lifecycle_steps _).2.1 ((lifecycle_steps QmlProfilerModelManager.create).1 rfl))⟩

/-- Claim C3: for every manager, after `clear` the pipeline state is `Empty`, the trace
window is `[-1, -1]`, `visibleFeatures` and `recordedFeatures` are 0, and
`availableFeatures` is what it was before the call. -/
theorem clear_resets (m : QmlProfilerModelManager) :
    (m.clear).d.state = State.Empty ∧
    (m.clear).d.traceTime = { m_startTime := -1, m_endTime := -1 } ∧
    (m.clear).d.visibleFeatures = 0 ∧
    (m.clear).d.recordedFeatures = 0 ∧
    (m.clear).d.availableFeatures = m.d.availableFeatures := by
  simp [clear_d]

/-- Claim C4: `clear` is idempotent.  The private data of the manager (pipeline state,
trace window, the three feature sets, loader and finalizer lists, both stores) after
`clear(); clear()` equals the private data after a single `clear()`. -/
theorem clear_idempotent (m : QmlProfilerModelManager) :
    (m.clear.clear).d = (m.clear).d := by
  simp [clear_d]

/-- Claim C5 is false as stated: on a new manager on which a feature has been
announced the pipeline state is `Empty` and `visibleFeatures` is 1, and `clear` resets
`visibleFeatures` to 0. -/
theorem clear_in_empty_not_noop :
    announcedManager.d.state = State.Empty ∧
    announcedManager.d.visibleFeatures = 1 ∧
    (announcedManager.clear).d.visibleFeatures = 0 ∧
    (announcedManager.clear).d.visibleFeatures ≠ announcedManager.d.visibleFeatures := by
  decide

/-- Claim C5, amended: `clear` called in state `Empty` leaves the pipeline state, the
trace window and the available, visible and recorded feature sets as they were exactly
when the window is already `[-1, -1]` and `visibleFeatures` and `recordedFeatures` are
already 0; otherwise it resets these three and keeps the state `Empty` and
`availableFeatures`. -/
theorem clear_in_empty (m : QmlProfilerModelManager) (h : m.d.state = State.Empty) :
    ((m.clear).d.state = m.d.state ∧
      (m.clear).d.traceTime = m.d.traceTime ∧
      (m.clear).d.availableFeatures = m.d.availableFeatures ∧
      (m.clear).d.visibleFeatures = m.d.visibleFeatures ∧
      (m.clear).d.recordedFeatures = m.d.recordedFeatures) ↔
    (m.d.traceTime = { m_startTime := -1, m_endTime := -1 } ∧
      m.d.visibleFeatures = 0 ∧ m.d.recordedFeatures = 0) := by
  simp only [clear_d, h, true_and]
  constructor
  · rintro ⟨h1, h2, h3⟩
    exact ⟨h1.symm, h2.symm, h3.symm⟩
  · rintro ⟨h1, h2, h3⟩
    exact ⟨h1.symm, h2.symm, h3.symm⟩

/-- Witness of the amended claim C5: on a new manager `clear` changes none of the five
components. -/
theorem clear_in_empty_witness :
    QmlProfilerModelManager.create.d.state = State.Empty ∧
    (QmlProfilerModelManager.create.clear).d.state = QmlProfilerModelManager.create.d.state ∧
    (QmlProfilerModelManager.create.clear).d.traceTime
      = QmlProfilerModelManager.create.d.traceTime ∧
    (QmlProfilerModelManager.create.clear).d.availableFeatures
      = QmlProfilerModelManager.create.d.availableFeatures ∧
    (QmlProfilerModelManager.create.clear).d.visibleFeatures
      = QmlProfilerModelManager.create.d.visibleFeatures ∧
    (QmlProfilerModelManager.create.clear).d.recordedFeatures
      = QmlProfilerModelManager.create.d.recordedFeatures :=
  ⟨rfl, (clear_in_empty QmlProfilerModelManager.create rfl).mpr ⟨rfl, rfl, rfl⟩⟩

/-! ### Claims C6 to C10: `addQmlEvent` and `addDebugMessage` -/

/-- A value in the range of `qint64` is its own wrap. -/
theorem wrapQint64_of_isQint64 (x : Int) (h : isQint64 x) : wrapQint64 x = x := by
  unfold isQint64 at h
  unfold wrapQint64
  omega

/-- The private data after `addQmlEvent`: the window is bootstrapped when its start is
`-1`, the event is handed to the store, the rest is as before. -/
theorem addQmlEvent_d (m : QmlProfilerModelManager) (message : Message)
    (rangeType : RangeType) (detailType startTime length : Int) (data : String)
    (location : QmlEventLocation) (ndata1 ndata2 ndata3 ndata4 ndata5 : Int) :
    (m.addQmlEvent message rangeType detailType startTime length data location ndata1
        ndata2 ndata3 ndata4 ndata5).d =
      { m.d with
        traceTime :=
          if m.d.traceTime.m_startTime = -1 then
            { m_startTime := startTime,
              m_endTime := wrapQint64 (startTime + m.d.traceTime.duration) }
          else m.d.traceTime
        model := m.d.model.addEvent message rangeType detailType startTime length data
          location ndata1 ndata2 ndata3 ndata4 ndata5 } := by
  unfold addQmlEvent
  simp only [softAssert_d, QmlProfilerTraceTime.startTime, setTime_eq]
  split_ifs <;> rfl

/-- The observations after `addQmlEvent`: the failed assertion of line 260 is logged
when the state is not `AcquiringData`, and nothing is emitted. -/
theorem addQmlEvent_observed (m : QmlProfilerModelManager) (message : Message)
    (rangeType : RangeType) (detailType startTime length : Int) (data : String)
    (location : QmlEventLocation) (ndata1 ndata2 ndata3 ndata4 ndata5 : Int) :
    (m.addQmlEvent message rangeType detailType startTime length data location ndata1
        ndata2 ndata3 ndata4 ndata5).observed =
      if m.d.state = State.AcquiringData then m.observed
      else m.observed ++ [Observation.softAssert 260] := by
  unfold addQmlEvent
  simp only [softAssert, observe, QmlProfilerModelManager.state]
  split_ifs <;> simp_all

/-- Claim C6 is false as stated: `addQmlEvent` on a new manager, whose state is `Empty`
and whose window is `[-1, -1]`, with an event that starts at 5 leaves the window
`[5, 5]` and one event in the store. -/
theorem addQmlEvent_in_empty_mutates :
    QmlProfilerModelManager.create.d.state = State.Empty ∧
    QmlProfilerModelManager.create.d.traceTime = { m_startTime := -1, m_endTime := -1 } ∧
    QmlProfilerModelManager.create.d.model.eventList = [] ∧
    ((rangeEventAt 5).run QmlProfilerModelManager.create).d.state = State.Empty ∧
    ((rangeEventAt 5).run QmlProfilerModelManager.create).d.traceTime
      = { m_startTime := 5, m_endTime := 5 } ∧
    ((rangeEventAt 5).run QmlProfilerModelManager.create).d.model.eventList
      = [{ typeIndex := 0, startTime := 5, duration := 0, payload := [0, 0, 0, 0, 0],
           text := none }] := by
  decide

/-- Claim C6, amended: `addQmlEvent` issued in any state other than `AcquiringData`
leaves the pipeline state and the three feature sets unchanged and logs the failed
assertion, but the call is not dropped: the event is handed to the event store, and the
trace window becomes `[t, t + duration()]` when its start is `-1` and is unchanged
otherwise. -/
theorem addQmlEvent_outside_acquiring (m : QmlProfilerModelManager) (message : Message)
    (rangeType : RangeType) (detailType startTime length : Int) (data : String)
    (location : QmlEventLocation) (ndata1 ndata2 ndata3 ndata4 ndata5 : Int)
    (h : m.d.state ≠ State.AcquiringData) :
    (m.addQmlEvent message rangeType detailType startTime length data location ndata1
        ndata2 ndata3 ndata4 ndata5).d.state = m.d.state ∧
    (m.addQmlEvent message rangeType detailType startTime length data location ndata1
        ndata2 ndata3 ndata4 ndata5).d.availableFeatures = m.d.availableFeatures ∧
    (m.addQmlEvent message rangeType detailType startTime length data location ndata1
        ndata2 ndata3 ndata4 ndata5).d.visibleFeatures = m.d.visibleFeatures ∧
    (m.addQmlEvent message rangeType detailType startTime length data location ndata1
        ndata2 ndata3 ndata4 ndata5).d.recordedFeatures = m.d.recordedFeatures ∧
    (m.addQmlEvent message rangeType detailType startTime length data location ndata1
        ndata2 ndata3 ndata4 ndata5).observed
      = m.observed ++ [Observation.softAssert 260] ∧
    (m.addQmlEvent message rangeType detailType startTime length data location ndata1
        ndata2 ndata3 ndata4 ndata5).d.model
      = m.d.model.addEvent message rangeType detailType startTime length data location
          ndata1 ndata2 ndata3 ndata4 ndata5 ∧
    (m.addQmlEvent message rangeType detailType startTime length data location ndata1
        ndata2 ndata3 ndata4 ndata5).d.traceTime
      = if m.d.traceTime.m_startTime = -1 then
          { m_startTime := startTime,
            m_endTime := wrapQint64 (startTime + m.d.traceTime.duration) }
        else m.d.traceTime := by
  simp [addQmlEvent_d, addQmlEvent_observed, h]

/-- Witness of the amended claim C6: on a new manager, whose state is
`Empty`, the event that starts at 5 leaves the state `Empty`, the window `[5, 5]` and
the log of the failed assertion. -/
theorem addQmlEvent_outside_acquiring_witness :
    QmlProfilerModelManager.create.d.state ≠ State.AcquiringData ∧
    ((rangeEventAt 5).run QmlProfilerModelManager.create).d.state = State.Empty ∧
    ((rangeEventAt 5).run QmlProfilerModelManager.create).observed
      = [Observation.softAssert 260] ∧
    ((rangeEventAt 5).run QmlProfilerModelManager.create).d.traceTime
      = { m_startTime := 5, m_endTime := 5 } :=
  have key := addQmlEvent_outside_acquiring QmlProfilerModelManager.create
    Message.RangeStart RangeType.Javascript 0 5 0 (String.mk []) noLocation 0 0 0 0 0
    (by decide)
  ⟨by decide, key.1, key.2.2.2.2.1, key.2.2.2.2.2.2.trans (by decide)⟩

/-- The window after one call of `addQmlEvent`. -/
theorem run_traceTime (c : AddQmlEventCall) (m : QmlProfilerModelManager) :
    (c.run m).d.traceTime =
      if m.d.traceTime.m_startTime = -1 then
        { m_startTime := c.startTime,
          m_endTime := wrapQint64 (c.startTime + m.d.traceTime.duration) }
      else m.d.traceTime := by
  simp [AddQmlEventCall.run, addQmlEvent_d]

/-- Once the start of the window is set, no sequence of `addQmlEvent` calls moves the
window. -/
theorem addQmlEvents_traceTime_of_started (calls : List AddQmlEventCall)
    (m : QmlProfilerModelManager) (h : m.d.traceTime.m_startTime ≠ -1) :
    (addQmlEvents m calls).d.traceTime = m.d.traceTime := by
  induction calls generalizing m with
  | nil => rfl
  | cons c rest ih =>
    have h1 : (c.run m).d.traceTime = m.d.traceTime := by
      rw [run_traceTime, if_neg h]
    have h2 : (c.run m).d.traceTime.m_startTime ≠ -1 := by rw [h1]; exact h
    calc (addQmlEvents m (c :: rest)).d.traceTime
        = (addQmlEvents (c.run m) rest).d.traceTime := rfl
      _ = (c.run m).d.traceTime := ih (c.run m) h2
      _ = m.d.traceTime := h1

/-- Claim C7 is false as stated: in `AcquiringData`, from the cleared window, the start
times 5, 1, 3, 2, 4 leave the window `[5, 5]`, not `[1, 5]`. -/
theorem addQmlEvents_window_not_min_max :
    acquiringManager.d.state = State.AcquiringData ∧
    acquiringManager.d.traceTime = { m_startTime := -1, m_endTime := -1 } ∧
    (addQmlEvents acquiringManager ([5, 1, 3, 2, 4].map rangeEventAt)).d.traceTime
      = { m_startTime := 5, m_endTime := 5 } ∧
    (addQmlEvents acquiringManager ([5, 1, 3, 2, 4].map rangeEventAt)).d.traceTime
      ≠ { m_startTime := 1, m_endTime := 5 } := by
  decide

/-- Claim C7, amended: for any sequence of `addQmlEvent` calls with `qint64` start times
`t_1 .. t_n` issued from the cleared trace window, the final window is `[t, t]` for
the first start time `t` of the sequence that is not `-1`, whatever comes after it, and
still `[-1, -1]` when there is none: `addQmlEvent` only bootstraps the window. -/
theorem addQmlEvents_window (calls : List AddQmlEventCall) (m : QmlProfilerModelManager)
    (hw : m.d.traceTime = { m_startTime := -1, m_endTime := -1 })
    (hq : ∀ c ∈ calls, isQint64 c.startTime) :
    (addQmlEvents m calls).d.traceTime =
      match (calls.map (fun c => c.startTime)).find? (fun t => decide (t ≠ -1)) with
      | some t => { m_startTime := t, m_endTime := t }
      | none => { m_startTime := -1, m_endTime := -1 } := by
  induction calls generalizing m with
  | nil => simpa [addQmlEvents] using hw
  | cons c rest ih =>
    have hc : isQint64 c.startTime := hq c (List.mem_cons_self c rest)
    have hrest : ∀ c1 ∈ rest, isQint64 c1.startTime :=
      fun c1 h1 => hq c1 (List.mem_cons_of_mem c h1)
    have hstep : (c.run m).d.traceTime
        = { m_startTime := c.startTime, m_endTime := c.startTime } := by
      have h0 : wrapQint64 0 = 0 := by decide
      rw [run_traceTime, hw]
      simp [QmlProfilerTraceTime.duration, QmlProfilerTraceTime.startTime,
        QmlProfilerTraceTime.endTime, h0, wrapQint64_of_isQint64 _ hc]
    have hfold : addQmlEvents m (c :: rest) = addQmlEvents (c.run m) rest := rfl
    by_cases ht : c.startTime = -1
    · have hw1 : (c.run m).d.traceTime = { m_startTime := -1, m_endTime := -1 } := by
        rw [hstep, ht]
      rw [hfold, ih (c.run m) hw1 hrest]
      simp [List.find?, ht]
    · have hs : (c.run m).d.traceTime.m_startTime ≠ -1 := by
        rw [hstep]; exact ht
      rw [hfold, addQmlEvents_traceTime_of_started rest (c.run m) hs, hstep]
      simp [List.find?, ht]

/-- Witness of the amended claim C7: from the cleared window of a manager in
`AcquiringData`, the start times 5, 1, 3, 2, 4 leave the window `[5, 5]`. -/
theorem addQmlEvents_window_witness :
    acquiringManager.d.traceTime = { m_startTime := -1, m_endTime := -1 } ∧
    (∀ c ∈ [5, 1, 3, 2, 4].map rangeEventAt, isQint64 c.startTime) ∧
    (addQmlEvents acquiringManager ([5, 1, 3, 2, 4].map rangeEventAt)).d.traceTime
      = { m_startTime := 5, m_endTime := 5 } :=
  ⟨by decide, by decide,
    (addQmlEvents_window ([5, 1, 3, 2, 4].map rangeEventAt) acquiringManager
      (by decide) (by decide)).trans (by decide)⟩

/-- Claim C8: `addQmlEvent` bootstraps the trace window lazily.  For every manager and
event start time `t`, if the start of the window is `-1` before the call it is `t`
after it, and if it is not `-1` before the call it is unchanged. -/
theorem addQmlEvent_bootstraps_start (m : QmlProfilerModelManager) (message : Message)
    (rangeType : RangeType) (detailType startTime length : Int) (data : String)
    (location : QmlEventLocation) (ndata1 ndata2 ndata3 ndata4 ndata5 : Int) :
    (m.d.traceTime.m_startTime = -1 →
      (m.addQmlEvent message rangeType detailType startTime length data location ndata1
          ndata2 ndata3 ndata4 ndata5).d.traceTime.m_startTime = startTime) ∧
    (m.d.traceTime.m_startTime ≠ -1 →
      (m.addQmlEvent message rangeType detailType startTime length data location ndata1
          ndata2 ndata3 ndata4 ndata5).d.traceTime.m_startTime
        = m.d.traceTime.m_startTime) := by
  constructor
  · intro h
    simp [addQmlEvent_d, h]
  · intro h
    simp [addQmlEvent_d, h]

/-- Witness of claim C8: the first event, at 5, sets the start of
the cleared window to 5, and a second event, at 1, leaves it at 5. -/
theorem addQmlEvent_bootstraps_start_witness :
    acquiringManager.d.traceTime.m_startTime = -1 ∧
    ((rangeEventAt 5).run acquiringManager).d.traceTime.m_startTime = 5 ∧
    ((rangeEventAt 5).run acquiringManager).d.traceTime.m_startTime ≠ -1 ∧
    ((rangeEventAt 1).run ((rangeEventAt 5).run acquiringManager)).d.traceTime.m_startTime
      = 5 :=
  ⟨by decide,
    (addQmlEvent_bootstraps_start acquiringManager Message.RangeStart RangeType.Javascript
      0 5 0 (String.mk []) noLocation 0 0 0 0 0).1 (by decide),
    by decide,
    ((addQmlEvent_bootstraps_start ((rangeEventAt 5).run acquiringManager)
      Message.RangeStart RangeType.Javascript 0 1 0 (String.mk []) noLocation
      0 0 0 0 0).2 (by decide)).trans (by decide)⟩

/-- Claim C9: `addDebugMessage` is silently ignored outside `AcquiringData`.  For every
manager whose state is not `AcquiringData` and every timestamp, message type, text and
location, the manager after the call is the manager before it: no event reaches the
store, nothing is logged or emitted, and state, window and feature sets are unchanged. -/
theorem addDebugMessage_ignored (m : QmlProfilerModelManager) (timestamp messageType : Int)
    (text : String) (location : QmlEventLocation) (h : m.d.state ≠ State.AcquiringData) :
    m.addDebugMessage timestamp messageType text location = m := by
  unfold addDebugMessage
  rw [if_neg]
  exact h

/-- Witness of claim C9: a debug message on a finished trace, state
`Done`, changes nothing. -/
theorem addDebugMessage_ignored_witness :
    doneManager.d.state ≠ State.AcquiringData ∧
    doneManager.addDebugMessage 5 0 (String.mk []) noLocation = doneManager :=
  ⟨by decide, addDebugMessage_ignored doneManager 5 0 (String.mk []) noLocation (by decide)⟩

/-- Claim C10 is false as stated: in `AcquiringData` with the cleared window, the debug
message at 5 leaves the window `[-1, -1]`, while `addQmlEvent` with the same event
leaves the window `[5, 5]`. -/
theorem addDebugMessage_window_differs :
    acquiringManager.d.state = State.AcquiringData ∧
    (acquiringManager.addDebugMessage 5 0 (String.mk []) noLocation).d.traceTime
      = { m_startTime := -1, m_endTime := -1 } ∧
    (acquiringManager.addQmlEvent Message.DebugMessage RangeType.MaximumRangeType 0 5 0
        (String.mk []) noLocation 0 0 0 0 0).d.traceTime
      = { m_startTime := 5, m_endTime := 5 } := by
  decide

/-- Claim C10, amended: in state `AcquiringData`, `addDebugMessage(timestamp,
messageType, text, location)` and `addQmlEvent(DebugMessage, MaximumRangeType,
messageType, timestamp, 0, text, location, 0, 0, 0, 0, 0)` hand the same event to the
store, log and emit the same, and leave the same private data but for the trace
window: `addDebugMessage` leaves the window as it was, so the two resulting managers
are equal whenever the start of the window is not `-1` before the call. -/
theorem addDebugMessage_vs_addQmlEvent (m : QmlProfilerModelManager)
    (timestamp messageType : Int) (text : String) (location : QmlEventLocation)
    (h : m.d.state = State.AcquiringData) :
    (m.addDebugMessage timestamp messageType text location).d.model
      = (m.addQmlEvent Message.DebugMessage RangeType.MaximumRangeType messageType
          timestamp 0 text location 0 0 0 0 0).d.model ∧
    (m.addDebugMessage timestamp messageType text location).d.model
      = m.d.model.addEvent Message.DebugMessage RangeType.MaximumRangeType messageType
          timestamp 0 text location 0 0 0 0 0 ∧
    (m.addDebugMessage timestamp messageType text location).observed
      = (m.addQmlEvent Message.DebugMessage RangeType.MaximumRangeType messageType
          timestamp 0 text location 0 0 0 0 0).observed ∧
    (m.addDebugMessage timestamp messageType text location).d
      = { (m.addQmlEvent Message.DebugMessage RangeType.MaximumRangeType messageType
            timestamp 0 text location 0 0 0 0 0).d with traceTime := m.d.traceTime } ∧
    (m.d.traceTime.m_startTime ≠ -1 →
      m.addDebugMessage timestamp messageType text location
        = m.addQmlEvent Message.DebugMessage RangeType.MaximumRangeType messageType
            timestamp 0 text location 0 0 0 0 0) := by
  have hd : (m.addDebugMessage timestamp messageType text location).d
      = { m.d with
          model := m.d.model.addEvent Message.DebugMessage RangeType.MaximumRangeType
            messageType timestamp 0 text location 0 0 0 0 0 } := by
    simp [addDebugMessage, QmlProfilerModelManager.state, h]
  have ho : (m.addDebugMessage timestamp messageType text location).observed
      = m.observed := by
    simp [addDebugMessage, QmlProfilerModelManager.state, h]
  refine ⟨?_, ?_, ?_, ?_, ?_⟩
  · rw [hd, addQmlEvent_d]
  · rw [hd]
  · rw [ho, addQmlEvent_observed, if_pos h]
  · rw [hd, addQmlEvent_d]
  · intro hs
    have e1 : (m.addDebugMessage timestamp messageType text location).d
        = (m.addQmlEvent Message.DebugMessage RangeType.MaximumRangeType messageType
            timestamp 0 text location 0 0 0 0 0).d := by
      rw [hd, addQmlEvent_d, if_neg hs]
    have e2 : (m.addDebugMessage timestamp messageType text location).observed
        = (m.addQmlEvent Message.DebugMessage RangeType.MaximumRangeType messageType
            timestamp 0 text location 0 0 0 0 0).observed := by
      rw [ho, addQmlEvent_observed, if_pos h]
    calc m.addDebugMessage timestamp messageType text location
        = { d := (m.addDebugMessage timestamp messageType text location).d,
            observed := (m.addDebugMessage timestamp messageType text location).observed } :=
          rfl
      _ = { d := (m.addQmlEvent Message.DebugMessage RangeType.MaximumRangeType messageType
              timestamp 0 text location 0 0 0 0 0).d,
            observed := (m.addQmlEvent Message.DebugMessage RangeType.MaximumRangeType
              messageType timestamp 0 text location 0 0 0 0 0).observed } := by
          rw [e1, e2]
      _ = m.addQmlEvent Message.DebugMessage RangeType.MaximumRangeType messageType
            timestamp 0 text location 0 0 0 0 0 := rfl

/-- Witness of the amended claim C10: once a first event, at 5, has set the
window, a debug message at 7 and the corresponding `addQmlEvent` leave the same
manager. -/
theorem addDebugMessage_vs_addQmlEvent_witness :
    ((rangeEventAt 5).run acquiringManager).d.state = State.AcquiringData ∧
    ((rangeEventAt 5).run acquiringManager).d.traceTime.m_startTime ≠ -1 ∧
    ((rangeEventAt 5).run acquiringManager).addDebugMessage 7 0 (String.mk []) noLocation
      = ((rangeEventAt 5).run acquiringManager).addQmlEvent Message.DebugMessage
          RangeType.MaximumRangeType 0 7 0 (String.mk []) noLocation 0 0 0 0 0 :=
  ⟨by decide, by decide,
    (addDebugMessage_vs_addQmlEvent ((rangeEventAt 5).run acquiringManager) 7 0
      (String.mk []) noLocation (by decide)).2.2.2.2 (by decide)⟩

/-! ### Claims C11 to C15: the trace window -/

/-- A widening call on a window whose bounds are set and ordered, with a non-negative
argument: `decreaseStartTime` lowers the start to the argument when that is smaller and
`increaseEndTime` raises the end to the argument when that is larger; nothing else
moves. -/
theorem WindowOp.run_started (op : WindowOp) (tt : QmlProfilerTraceTime)
    (h0 : 0 ≤ tt.m_startTime) (hle : tt.m_startTime ≤ tt.m_endTime) (ht : 0 ≤ op.time) :
    op.run tt =
      match op with
      | WindowOp.decreaseStartTime t =>
          { m_startTime := if t < tt.m_startTime then t else tt.m_startTime,
            m_endTime := tt.m_endTime }
      | WindowOp.increaseEndTime t =>
          { m_startTime := tt.m_startTime,
            m_endTime := if tt.m_endTime < t then t else tt.m_endTime } := by
  obtain ⟨s, e⟩ := tt
  simp only at h0 hle
  cases op with
  | decreaseStartTime t =>
    simp only [WindowOp.time] at ht
    simp only [WindowOp.run, QmlProfilerTraceTime.decreaseStartTime]
    by_cases h1 : t < s
    · have h2 : s > t ∨ s = -1 := Or.inl h1
      have h3 : ¬ e = -1 := by omega
      have h4 : e ≥ t := by omega
      simp [h1, h2, h3, h4]
    · have h2 : ¬ (s > t ∨ s = -1) := by omega
      rw [if_neg h2, if_neg h1]
  | increaseEndTime t =>
    simp only [WindowOp.time] at ht
    simp only [WindowOp.run, QmlProfilerTraceTime.increaseEndTime]
    by_cases h1 : e < t
    · have h2 : e < t ∨ e = -1 := Or.inl h1
      have h3 : ¬ s = -1 := by omega
      have h4 : t ≥ s := by omega
      simp [h1, h2, h3, h4]
    · have h2 : ¬ (e < t ∨ e = -1) := by omega
      rw [if_neg h2, if_neg h1]

/-- The first widening call on the cleared window sets both bounds to its argument. -/
theorem WindowOp.run_create (op : WindowOp) :
    op.run QmlProfilerTraceTime.create = { m_startTime := op.time, m_endTime := op.time } := by
  cases op <;>
    simp [WindowOp.run, WindowOp.time, QmlProfilerTraceTime.create,
      QmlProfilerTraceTime.decreaseStartTime, QmlProfilerTraceTime.increaseEndTime]

/-- On a window whose bounds are set and ordered, a sequence of widening calls with
non-negative arguments keeps the bounds non-negative and ordered, leaves the start at
the least of the old start and the `decreaseStartTime` arguments, and leaves the end at
the greatest of the old end and the `increaseEndTime` arguments. -/
theorem applyWindowOps_started (ops : List WindowOp) (tt : QmlProfilerTraceTime)
    (h0 : 0 ≤ tt.m_startTime) (hle : tt.m_startTime ≤ tt.m_endTime)
    (hops : ∀ op ∈ ops, 0 ≤ op.time) :
    ((applyWindowOps tt ops).m_startTime ≤ tt.m_startTime ∧
      (∀ t, WindowOp.decreaseStartTime t ∈ ops → (applyWindowOps tt ops).m_startTime ≤ t) ∧
      ((applyWindowOps tt ops).m_startTime = tt.m_startTime ∨
        WindowOp.decreaseStartTime (applyWindowOps tt ops).m_startTime ∈ ops)) ∧
    (tt.m_endTime ≤ (applyWindowOps tt ops).m_endTime ∧
      (∀ t, WindowOp.increaseEndTime t ∈ ops → t ≤ (applyWindowOps tt ops).m_endTime) ∧
      ((applyWindowOps tt ops).m_endTime = tt.m_endTime ∨
        WindowOp.increaseEndTime (applyWindowOps tt ops).m_endTime ∈ ops)) := by
  induction ops generalizing tt with
  | nil => simp [applyWindowOps]
  | cons op rest ih =>
    have hop : 0 ≤ op.time := hops op (List.mem_cons_self op rest)
    have hrest : ∀ o ∈ rest, 0 ≤ o.time := fun o ho => hops o (List.mem_cons_of_mem op ho)
    have hfold : applyWindowOps tt (op :: rest) = applyWindowOps (op.run tt) rest := rfl
    have hrun := WindowOp.run_started op tt h0 hle hop
    rw [hfold]
    cases op with
    | decreaseStartTime u =>
      simp only [WindowOp.time] at hop
      simp only at hrun
      have hs : (WindowOp.run (WindowOp.decreaseStartTime u) tt).m_startTime
          = if u < tt.m_startTime then u else tt.m_startTime := by rw [hrun]
      have he : (WindowOp.run (WindowOp.decreaseStartTime u) tt).m_endTime = tt.m_endTime := by
        rw [hrun]
      have h0' : 0 ≤ (WindowOp.run (WindowOp.decreaseStartTime u) tt).m_startTime := by
        rw [hs]; split_ifs <;> omega
      have hle' : (WindowOp.run (WindowOp.decreaseStartTime u) tt).m_startTime
          ≤ (WindowOp.run (WindowOp.decreaseStartTime u) tt).m_endTime := by
        rw [hs, he]; split_ifs <;> omega
      obtain ⟨⟨a1, a2, a3⟩, b1, b2, b3⟩ := ih _ h0' hle' hrest
      rw [hs] at a1 a3
      rw [he] at b1 b3
      refine ⟨⟨?_, ?_, ?_⟩, b1, ?_, ?_⟩
      · split_ifs at a1 <;> omega
      · intro t ht
        rcases List.mem_cons.mp ht with h | h
        · have htu : t = u := by injection h
          rw [htu]
          split_ifs at a1 <;> omega
        · exact a2 t h
      · rcases a3 with h | h
        · by_cases hu : u < tt.m_startTime
          · rw [if_pos hu] at h
            right
            rw [h]
            exact List.mem_cons_self _ _
          · rw [if_neg hu] at h
            exact Or.inl h
        · exact Or.inr (List.mem_cons_of_mem _ h)
      · intro t ht
        rcases List.mem_cons.mp ht with h | h
        · cases h
        · exact b2 t h
      · rcases b3 with h | h
        · exact Or.inl h
        · exact Or.inr (List.mem_cons_of_mem _ h)
    | increaseEndTime u =>
      simp only [WindowOp.time] at hop
      simp only at hrun
      have hs : (WindowOp.run (WindowOp.increaseEndTime u) tt).m_startTime
          = tt.m_startTime := by rw [hrun]
      have he : (WindowOp.run (WindowOp.increaseEndTime u) tt).m_endTime
          = if tt.m_endTime < u then u else tt.m_endTime := by rw [hrun]
      have h0' : 0 ≤ (WindowOp.run (WindowOp.increaseEndTime u) tt).m_startTime := by
        rw [hs]; exact h0
      have hle' : (WindowOp.run (WindowOp.increaseEndTime u) tt).m_startTime
          ≤ (WindowOp.run (WindowOp.increaseEndTime u) tt).m_endTime := by
        rw [hs, he]; split_ifs <;> omega
      obtain ⟨⟨a1, a2, a3⟩, b1, b2, b3⟩ := ih _ h0' hle' hrest
      rw [hs] at a1 a3
      rw [he] at b1 b3
      refine ⟨⟨a1, ?_, ?_⟩, ?_, ?_, ?_⟩
      · intro t ht
        rcases List.mem_cons.mp ht with h | h
        · cases h
        · exact a2 t h
      · rcases a3 with h | h
        · exact Or.inl h
        · exact Or.inr (List.mem_cons_of_mem _ h)
      · split_ifs at b1 <;> omega
      · intro t ht
        rcases List.mem_cons.mp ht with h | h
        · have htu : t = u := by injection h
          rw [htu]
          split_ifs at b1 <;> omega
        · exact b2 t h
      · rcases b3 with h | h
        · by_cases hu : tt.m_endTime < u
          · rw [if_pos hu] at h
            right
            rw [h]
            exact List.mem_cons_self _ _
          · rw [if_neg hu] at h
            exact Or.inl h
        · exact Or.inr (List.mem_cons_of_mem _ h)

/-- Claim C11: widening is order-independent and exact.  Starting from the cleared
window `[-1, -1]`, for every non-empty list of non-negative times, every sequence of
calls that holds `decreaseStartTime(t)` and `increaseEndTime(t)` once for each `t` of the
list, in any order and interleaving, leaves the window `[min, max]` of the list: the
start is an element of the list below all its elements, the end an element of the
list above all its elements. -/
theorem widening_order_independent (ts : List Int) (ops : List WindowOp)
    (hne : ts ≠ []) (hpos : ∀ t ∈ ts, 0 ≤ t)
    (hperm : ops.Perm
      (ts.map WindowOp.decreaseStartTime ++ ts.map WindowOp.increaseEndTime)) :
    ((applyWindowOps QmlProfilerTraceTime.create ops).m_startTime ∈ ts ∧
      ∀ t ∈ ts, (applyWindowOps QmlProfilerTraceTime.create ops).m_startTime ≤ t) ∧
    ((applyWindowOps QmlProfilerTraceTime.create ops).m_endTime ∈ ts ∧
      ∀ t ∈ ts, t ≤ (applyWindowOps QmlProfilerTraceTime.create ops).m_endTime) := by
  have hmem : ∀ op, op ∈ ops ↔
      op ∈ ts.map WindowOp.decreaseStartTime ++ ts.map WindowOp.increaseEndTime :=
    fun op => hperm.mem_iff
  have htime : ∀ op ∈ ops, op.time ∈ ts := by
    intro op hop
    rcases List.mem_append.mp ((hmem op).mp hop) with h | h
    · obtain ⟨t, ht, rfl⟩ := List.mem_map.mp h
      exact ht
    · obtain ⟨t, ht, rfl⟩ := List.mem_map.mp h
      exact ht
  have hdec : ∀ t ∈ ts, WindowOp.decreaseStartTime t ∈ ops := fun t ht =>
    (hmem _).mpr (List.mem_append.mpr (Or.inl (List.mem_map.mpr ⟨t, ht, rfl⟩)))
  have hinc : ∀ t ∈ ts, WindowOp.increaseEndTime t ∈ ops := fun t ht =>
    (hmem _).mpr (List.mem_append.mpr (Or.inr (List.mem_map.mpr ⟨t, ht, rfl⟩)))
  cases ops with
  | nil =>
    obtain ⟨t, ht⟩ := List.exists_mem_of_ne_nil ts hne
    exact absurd (hdec t ht) (List.not_mem_nil _)
  | cons op rest =>
    have hop : op.time ∈ ts := htime op (List.mem_cons_self op rest)
    have hrest : ∀ o ∈ rest, 0 ≤ o.time := fun o ho =>
      hpos _ (htime o (List.mem_cons_of_mem op ho))
    have hfold : applyWindowOps QmlProfilerTraceTime.create (op :: rest)
        = applyWindowOps { m_startTime := op.time, m_endTime := op.time } rest := by
      rw [← WindowOp.run_create op]; rfl
    rw [hfold]
    obtain ⟨⟨a1, a2, a3⟩, b1, b2, b3⟩ :=
      applyWindowOps_started rest { m_startTime := op.time, m_endTime := op.time }
        (hpos _ hop) (le_refl _) hrest
    simp only at a1 a3 b1 b3
    refine ⟨⟨?_, ?_⟩, ?_, ?_⟩
    · rcases a3 with h | h
      · rw [h]; exact hop
      · exact htime _ (List.mem_cons_of_mem op h)
    · intro t ht
      rcases List.mem_cons.mp (hdec t ht) with h | h
      · have : op.time = t := by rw [← h]; rfl
        omega
      · exact a2 t h
    · rcases b3 with h | h
      · rw [h]; exact hop
      · exact htime _ (List.mem_cons_of_mem op h)
    · intro t ht
      rcases List.mem_cons.mp (hinc t ht) with h | h
      · have : op.time = t := by rw [← h]; rfl
        omega
      · exact b2 t h

/-- Witness of claim C11: the times 5, 1, 3, 2, 4, with the `increaseEndTime` calls
issued in reverse order before the `decreaseStartTime` calls, leave the window
`[1, 5]`. -/
theorem widening_order_independent_witness :
    ([5, 1, 3, 2, 4] : List Int) ≠ [] ∧
    (∀ t ∈ ([5, 1, 3, 2, 4] : List Int), 0 ≤ t) ∧
    applyWindowOps QmlProfilerTraceTime.create
        (([5, 1, 3, 2, 4] : List Int).reverse.map WindowOp.increaseEndTime ++
          ([5, 1, 3, 2, 4] : List Int).map WindowOp.decreaseStartTime)
      = { m_startTime := 1, m_endTime := 5 } ∧
    (1 : Int) ∈ ([5, 1, 3, 2, 4] : List Int) ∧
    (∀ t ∈ ([5, 1, 3, 2, 4] : List Int), (1 : Int) ≤ t) :=
  have key := widening_order_independent [5, 1, 3, 2, 4]
    (([5, 1, 3, 2, 4] : List Int).reverse.map WindowOp.increaseEndTime ++
      ([5, 1, 3, 2, 4] : List Int).map WindowOp.decreaseStartTime)
    (by decide) (by decide) (by decide)
  ⟨by decide, by decide, by decide, key.1.1, key.1.2⟩

/-- Claim C12: the invariant of the trace window (both bounds `-1`, or
`startTime ≤ endTime`) is preserved by every window operation.  For every window that
satisfies it and every argument, the window after `decreaseStartTime(t)`, after
`increaseEndTime(t)`, after `clear()` and after `setTime(s, e)` with `s ≤ e` satisfies it
again, and `startTime ≤ endTime` holds after `decreaseStartTime` and after
`increaseEndTime`. -/
theorem invariant_preserved (tt : QmlProfilerTraceTime) (t s e : Int)
    (h : tt.invariant) :
    (tt.decreaseStartTime t).invariant ∧
    (tt.increaseEndTime t).invariant ∧
    tt.clear.invariant ∧
    (s ≤ e → (tt.setTime s e).invariant) ∧
    (tt.decreaseStartTime t).m_startTime ≤ (tt.decreaseStartTime t).m_endTime ∧
    (tt.increaseEndTime t).m_startTime ≤ (tt.increaseEndTime t).m_endTime := by
  obtain ⟨a, b⟩ := tt
  simp only [QmlProfilerTraceTime.invariant] at h
  have hdec : (QmlProfilerTraceTime.decreaseStartTime ⟨a, b⟩ t).m_startTime
      ≤ (QmlProfilerTraceTime.decreaseStartTime ⟨a, b⟩ t).m_endTime := by
    simp only [QmlProfilerTraceTime.decreaseStartTime]
    split_ifs <;> simp only <;> omega
  have hinc : (QmlProfilerTraceTime.increaseEndTime ⟨a, b⟩ t).m_startTime
      ≤ (QmlProfilerTraceTime.increaseEndTime ⟨a, b⟩ t).m_endTime := by
    simp only [QmlProfilerTraceTime.increaseEndTime]
    split_ifs <;> simp only <;> omega
  refine ⟨Or.inr hdec, Or.inr hinc, ?_, ?_, hdec, hinc⟩
  · simp [QmlProfilerTraceTime.clear, setTime_eq, QmlProfilerTraceTime.invariant]
  · intro hse
    rw [setTime_eq]
    exact Or.inr hse

/-- Witness of claim C12: the window `[3, 5]` satisfies the invariant, and so do the
windows after `decreaseStartTime(1)`, `increaseEndTime(9)`, `clear()` and
`setTime(2, 4)`. -/
theorem invariant_preserved_witness :
    QmlProfilerTraceTime.invariant { m_startTime := 3, m_endTime := 5 } ∧
    QmlProfilerTraceTime.decreaseStartTime { m_startTime := 3, m_endTime := 5 } 1
      = { m_startTime := 1, m_endTime := 5 } ∧
    (QmlProfilerTraceTime.decreaseStartTime { m_startTime := 3, m_endTime := 5 } 1).invariant ∧
    (QmlProfilerTraceTime.setTime { m_startTime := 3, m_endTime := 5 } 2 4).invariant :=
  have key := invariant_preserved { m_startTime := 3, m_endTime := 5 } 1 2 4 (by decide)
  ⟨by decide, by decide, key.1, key.2.2.2.1 (by decide)⟩

/-- Claim C13 is false as stated: the window `[-1, 5]` satisfies the invariant and its
start is `-1`, its end is not `-1`, and `decreaseStartTime(7)` leaves `[7, 7]`: the end
is not unchanged. -/
theorem decreaseStartTime_moves_end :
    QmlProfilerTraceTime.invariant { m_startTime := -1, m_endTime := 5 } ∧
    QmlProfilerTraceTime.decreaseStartTime { m_startTime := -1, m_endTime := 5 } 7
      = { m_startTime := 7, m_endTime := 7 } ∧
    (QmlProfilerTraceTime.decreaseStartTime { m_startTime := -1, m_endTime := 5 } 7).m_endTime
      ≠ 5 := by
  decide

/-- Claim C13, amended: for every window, in particular every window that satisfies the
invariant, and every `t`: if the start is `-1` or `t` is below the start, then after
`decreaseStartTime(t)` the start is `t`, and the end is `t` if it was `-1` or below `t`
(the end is pulled up to the new start) and is unchanged otherwise; if neither
condition holds, the window is unchanged. -/
theorem decreaseStartTime_spec (tt : QmlProfilerTraceTime) (t : Int) :
    ((tt.m_startTime = -1 ∨ t < tt.m_startTime) →
      (tt.decreaseStartTime t).m_startTime = t ∧
      (tt.decreaseStartTime t).m_endTime
        = if tt.m_endTime = -1 ∨ tt.m_endTime < t then t else tt.m_endTime) ∧
    (¬ (tt.m_startTime = -1 ∨ t < tt.m_startTime) → tt.decreaseStartTime t = tt) := by
  obtain ⟨a, b⟩ := tt
  simp only [QmlProfilerTraceTime.decreaseStartTime]
  constructor
  · intro h
    have h1 : a > t ∨ a = -1 := by omega
    rw [if_pos h1]
    by_cases hb : b = -1
    · simp [hb]
    · by_cases hbt : b < t
      · have h2 : ¬ b ≥ t := by omega
        simp [hb, hbt, h2]
      · have h2 : b ≥ t := by omega
        simp [hb, hbt, h2]
  · intro h
    have h1 : ¬ (a > t ∨ a = -1) := by omega
    rw [if_neg h1]

/-- Witness of the amended claim C13: on `[3, 5]`, `decreaseStartTime(1)` leaves
`[1, 5]` and `decreaseStartTime(4)` leaves the window as it is. -/
theorem decreaseStartTime_spec_witness :
    ((3 : Int) = -1 ∨ (1 : Int) < 3) ∧
    (QmlProfilerTraceTime.decreaseStartTime { m_startTime := 3, m_endTime := 5 } 1).m_startTime
      = 1 ∧
    (QmlProfilerTraceTime.decreaseStartTime { m_startTime := 3, m_endTime := 5 } 1).m_endTime
      = 5 ∧
    ¬ ((3 : Int) = -1 ∨ (4 : Int) < 3) ∧
    QmlProfilerTraceTime.decreaseStartTime { m_startTime := 3, m_endTime := 5 } 4
      = { m_startTime := 3, m_endTime := 5 } :=
  have key := (decreaseStartTime_spec { m_startTime := 3, m_endTime := 5 } 1).1 (by decide)
  ⟨by decide, key.1, key.2.trans (by decide), by decide,
    (decreaseStartTime_spec { m_startTime := 3, m_endTime := 5 } 4).2 (by decide)⟩

/-- Claim C14 is false as stated: `setTime(5, 3)` on the cleared window violates the
assertion of `setTime`; a release build stores the inverted interval `[5, 3]` instead of
leaving `[-1, -1]`, and a build with assertions aborts, leaving no window at all. -/
theorem setTime_inverted_not_rejected :
    (5 : Int) > 3 ∧
    QmlProfilerTraceTime.setTimeAssertion 5 3 = false ∧
    QmlProfilerTraceTime.create.setTime 5 3 = { m_startTime := 5, m_endTime := 3 } ∧
    QmlProfilerTraceTime.create.setTime 5 3 ≠ QmlProfilerTraceTime.create ∧
    QmlProfilerTraceTime.create.setTimeWithAssertions 5 3 = none := by
  decide

/-- Claim C14, amended: for every window and every `s ≤ e`, `setTime(s, e)` passes its
assertion and sets the window to exactly `[s, e]`.  An inverted interval is guarded by
`Q_ASSERT(startTime <= endTime)` only: for every `s > e` the assertion is false, a
build with assertions aborts in the call, and a release build stores `[s, e]` all the
same. -/
theorem setTime_spec (tt : QmlProfilerTraceTime) (s e : Int) :
    (s ≤ e →
      QmlProfilerTraceTime.setTimeAssertion s e = true ∧
      tt.setTime s e = { m_startTime := s, m_endTime := e } ∧
      tt.setTimeWithAssertions s e = some { m_startTime := s, m_endTime := e }) ∧
    (s > e →
      QmlProfilerTraceTime.setTimeAssertion s e = false ∧
      tt.setTime s e = { m_startTime := s, m_endTime := e } ∧
      tt.setTimeWithAssertions s e = none) := by
  constructor
  · intro h
    simp [QmlProfilerTraceTime.setTimeAssertion, QmlProfilerTraceTime.setTimeWithAssertions,
      setTime_eq, h]
  · intro h
    have h1 : ¬ s ≤ e := by omega
    simp [QmlProfilerTraceTime.setTimeAssertion, QmlProfilerTraceTime.setTimeWithAssertions,
      setTime_eq, h1]

/-- Witness of the amended claim C14: `setTime(2, 4)` on `[3, 5]` leaves `[2, 4]` in
both builds, and `setTime(4, 2)` aborts a build with assertions. -/
theorem setTime_spec_witness :
    (2 : Int) ≤ 4 ∧
    QmlProfilerTraceTime.setTime { m_startTime := 3, m_endTime := 5 } 2 4
      = { m_startTime := 2, m_endTime := 4 } ∧
    (4 : Int) > 2 ∧
    QmlProfilerTraceTime.setTimeWithAssertions { m_startTime := 3, m_endTime := 5 } 4 2
      = none :=
  ⟨by decide,
    ((setTime_spec { m_startTime := 3, m_endTime := 5 } 2 4).1 (by decide)).2.1,
    by decide,
    ((setTime_spec { m_startTime := 3, m_endTime := 5 } 4 2).2 (by decide)).2.2⟩

/-- Claim C15 is false as stated: on the window `[-1, 5]`, whose start is the sentinel
`-1` and which satisfies the invariant, `duration()` returns 6, not 0. -/
theorem duration_with_unset_start :
    QmlProfilerTraceTime.invariant { m_startTime := -1, m_endTime := 5 } ∧
    QmlProfilerTraceTime.duration { m_startTime := -1, m_endTime := 5 } = 6 ∧
    QmlProfilerTraceTime.duration { m_startTime := -1, m_endTime := 5 } ≠ 0 := by
  decide

/-- Claim C15, amended: for every window whose difference `end - start` is
representable as a `qint64`, `duration()` returns `end - start`, whether or not a
bound is the sentinel `-1`; it returns 0 exactly when start and end are equal, so with a
bound at `-1` it returns 0 only for the cleared window `[-1, -1]`. -/
theorem duration_spec (tt : QmlProfilerTraceTime)
    (h : isQint64 (tt.m_endTime - tt.m_startTime)) :
    tt.duration = tt.m_endTime - tt.m_startTime ∧
    (tt.duration = 0 ↔ tt.m_startTime = tt.m_endTime) ∧
    ((tt.m_startTime = -1 ∨ tt.m_endTime = -1) →
      (tt.duration = 0 ↔ (tt.m_startTime = -1 ∧ tt.m_endTime = -1))) := by
  have hd : tt.duration = tt.m_endTime - tt.m_startTime := by
    simp only [QmlProfilerTraceTime.duration, QmlProfilerTraceTime.endTime,
      QmlProfilerTraceTime.startTime]
    exact wrapQint64_of_isQint64 _ h
  refine ⟨hd, ?_, ?_⟩
  · rw [hd]; omega
  · intro _
    rw [hd]; omega

/-- Witness of the amended claim C15: the window `[1000, 1050]` has duration 50 and
the cleared window has duration 0. -/
theorem duration_spec_witness :
    isQint64 ((1050 : Int) - 1000) ∧
    QmlProfilerTraceTime.duration { m_startTime := 1000, m_endTime := 1050 } = 50 ∧
    isQint64 ((-1 : Int) - (-1)) ∧
    QmlProfilerTraceTime.duration QmlProfilerTraceTime.create = 0 :=
  ⟨by decide,
    (duration_spec { m_startTime := 1000, m_endTime := 1050 } (by decide)).1.trans
      (by decide),
    by decide,
    (duration_spec QmlProfilerTraceTime.create (by decide)).1.trans (by decide)⟩

/-! ### Claims C16 to C18: the feature sets and the loaders -/

/-- A mask that is contained in a set adds nothing to it. -/
theorem or_eq_of_and_eq (features a : Nat) (h : (features &&& a) = features) :
    a ||| features = a := by
  apply Nat.eq_of_testBit_eq
  intro i
  have hi := congrArg (fun x => x.testBit i) h
  simp only [Nat.testBit_and] at hi
  rw [Nat.testBit_or]
  cases hF : features.testBit i <;> cases ha : a.testBit i <;> simp_all

/-- The test `features & (1 << feature)` of `announceFeatures` is the test of bit
`feature` of the mask. -/
theorem and_shiftLeft_ne_zero_iff (features feature : Nat) :
    (features &&& (1 <<< feature)) ≠ 0 ↔ features.testBit feature = true := by
  rw [Nat.one_shiftLeft, Nat.and_two_pow]
  cases h : features.testBit feature <;> simp

/-- The loop of `announceFeatures` over the features below `n`: the loader is appended
to the vector of every feature below `n` whose bit is set in the mask, and to no
other. -/
theorem registerLoaders_apply (n features : Nat) (eventLoader : EventLoader)
    (h0 : Nat → List EventLoader) (f : Nat) :
    ((List.range n).foldl
        (fun h feature =>
          if (features &&& (1 <<< feature)) ≠ 0 then
            Function.update h feature (h feature ++ [eventLoader])
          else h)
        h0) f =
      if f < n ∧ features.testBit f = true then h0 f ++ [eventLoader] else h0 f := by
  induction n with
  | zero => simp
  | succ n ih =>
    rw [List.range_succ, List.foldl_append]
    simp only [List.foldl_cons, List.foldl_nil]
    by_cases hbit : (features &&& (1 <<< n)) ≠ 0
    · rw [if_pos hbit]
      have hn : features.testBit n = true := (and_shiftLeft_ne_zero_iff features n).mp hbit
      by_cases hfn : f = n
      · subst hfn
        rw [Function.update_same, ih]
        simp [hn]
      · rw [Function.update_noteq hfn, ih]
        have : f < n + 1 ↔ f < n := by omega
        simp [this]
    · rw [if_neg hbit, ih]
      have hn : ¬ features.testBit n = true := fun h =>
        hbit ((and_shiftLeft_ne_zero_iff features n).mpr h)
      by_cases hfn : f = n
      · subst hfn
        simp [hn]
      · have : f < n + 1 ↔ f < n := by omega
        simp [this]

/-- The private data after `announceFeatures`: the mask is added to the available and
to the visible features, the loader is appended to the vector of every feature of the
mask below `MaximumProfileFeature`, the finalizer is appended to the finalizers, and the
rest is as before. -/
theorem announceFeatures_d (m : QmlProfilerModelManager) (features : Nat)
    (eventLoader : EventLoader) (finalizer : Finalizer) :
    (m.announceFeatures features eventLoader finalizer).d =
      { m.d with
        availableFeatures := m.d.availableFeatures ||| features
        visibleFeatures := m.d.visibleFeatures ||| features
        eventLoaders := fun f =>
          if f < MaximumProfileFeature ∧ features.testBit f = true then
            m.d.eventLoaders f ++ [eventLoader]
          else m.d.eventLoaders f
        finalizers := m.d.finalizers ++ [finalizer] } := by
  have hloaders : ∀ h0 : Nat → List EventLoader,
      (List.range MaximumProfileFeature).foldl
        (fun h feature =>
          if (features &&& (1 <<< feature)) ≠ 0 then
            Function.update h feature (h feature ++ [eventLoader])
          else h)
        h0 =
      fun f =>
        if f < MaximumProfileFeature ∧ features.testBit f = true then h0 f ++ [eventLoader]
        else h0 f :=
    fun h0 => funext (registerLoaders_apply MaximumProfileFeature features eventLoader h0)
  unfold announceFeatures
  simp only [hloaders]
  by_cases ha : (features &&& m.d.availableFeatures) = features
  · by_cases hv : (features &&& m.d.visibleFeatures) = features
    · simp [ha, hv, or_eq_of_and_eq]
    · simp [ha, hv, or_eq_of_and_eq, observe]
  · by_cases hv : (features &&& m.d.visibleFeatures) = features
    · simp [ha, hv, or_eq_of_and_eq, observe]
    · simp [ha, hv, observe]

/-- Claim C16: for every manager and every feature mask `F`, after
`announceFeatures(F, loader, finalizer)` the available features are the old ones or-ed
with `F`, the visible features are the old ones or-ed with `F`, the finalizer is the
last of the finalizers, and the recorded features, the pipeline state and the trace
window are unchanged. -/
theorem announceFeatures_spec (m : QmlProfilerModelManager) (features : Nat)
    (eventLoader : EventLoader) (finalizer : Finalizer) :
    (m.announceFeatures features eventLoader finalizer).d.availableFeatures
      = m.d.availableFeatures ||| features ∧
    (m.announceFeatures features eventLoader finalizer).d.visibleFeatures
      = m.d.visibleFeatures ||| features ∧
    (m.announceFeatures features eventLoader finalizer).d.finalizers
      = m.d.finalizers ++ [finalizer] ∧
    (m.announceFeatures features eventLoader finalizer).d.recordedFeatures
      = m.d.recordedFeatures ∧
    (m.announceFeatures features eventLoader finalizer).d.state = m.d.state ∧
    (m.announceFeatures features eventLoader finalizer).d.traceTime = m.d.traceTime := by
  simp [announceFeatures_d]

/-- The loaders of a feature after a sequence of announcements: the loaders already
there, followed by the loader of every announcement whose mask holds the feature, once
per announcement and in the order of the announcements. -/
theorem announceAll_eventLoaders (announcements : List Announcement)
    (m : QmlProfilerModelManager) (f : Nat) (hf : f < MaximumProfileFeature) :
    (announceAll m announcements).d.eventLoaders f =
      m.d.eventLoaders f ++
        (announcements.filter (fun a => a.features.testBit f)).map
          (fun a => a.eventLoader) := by
  induction announcements generalizing m with
  | nil => simp [announceAll]
  | cons a rest ih =>
    have hfold : announceAll m (a :: rest) = announceAll (a.run m) rest := rfl
    rw [hfold, ih (a.run m)]
    simp only [Announcement.run, announceFeatures_d]
    by_cases hbit : a.features.testBit f = true
    · simp [hf, hbit]
    · simp [hbit]

/-- Claim C17: dispatch fidelity.  After any sequence of announcements
`announceFeatures(F_1, l_1, _), ..., announceFeatures(F_n, l_n, _)` on a new manager, for
every event whose type has a feature `f` below `MaximumProfileFeature`, `dispatch(event,
type)` calls exactly the loaders `l_i` whose mask `F_i` has bit `f` set, once per
announcement, in the order of the announcements, each with `(event, type)`. -/
theorem dispatch_fidelity (feature : QmlEventType → Nat)
    (announcements : List Announcement) (event : QmlEvent) (type : QmlEventType)
    (hf : feature type < MaximumProfileFeature) :
    dispatch feature (announceAll QmlProfilerModelManager.create announcements) event type =
      (announcements.filter (fun a => a.features.testBit (feature type))).map
        (fun a => (a.eventLoader, event, type)) := by
  unfold dispatch
  rw [announceAll_eventLoaders announcements _ _ hf]
  simp [QmlProfilerModelManager.create, List.map_map, Function.comp_def]

/-- Witness of claim C17: after the announcements of loader 10 for feature 0, loader 20
for feature 1 and loader 30 for features 0 and 1, an event of feature 0 reaches the
loaders 10 and 30, in that order, and not the loader 20. -/
theorem dispatch_fidelity_witness :
    (0 : Nat) < MaximumProfileFeature ∧
    dispatch (fun _ => 0)
        (announceAll QmlProfilerModelManager.create
          [{ features := 1, eventLoader := 10, finalizer := 0 },
           { features := 2, eventLoader := 20, finalizer := 0 },
           { features := 3, eventLoader := 30, finalizer := 0 }])
        { typeIndex := 0, startTime := 5, duration := 0, payload := [0, 0, 0, 0, 0],
          text := none }
        { message := Message.RangeStart, rangeType := RangeType.Javascript, detailType := 0,
          displayName := String.mk [], data := String.mk [], location := noLocation }
      = [(10, { typeIndex := 0, startTime := 5, duration := 0, payload := [0, 0, 0, 0, 0],
                text := none },
              { message := Message.RangeStart, rangeType := RangeType.Javascript,
                detailType := 0, displayName := String.mk [], data := String.mk [],
                location := noLocation }),
         (30, { typeIndex := 0, startTime := 5, duration := 0, payload := [0, 0, 0, 0, 0],
                text := none },
              { message := Message.RangeStart, rangeType := RangeType.Javascript,
                detailType := 0, displayName := String.mk [], data := String.mk [],
                location := noLocation })] :=
  ⟨by decide,
    (dispatch_fidelity (fun _ => 0)
      [{ features := 1, eventLoader := 10, finalizer := 0 },
       { features := 2, eventLoader := 20, finalizer := 0 },
       { features := 3, eventLoader := 30, finalizer := 0 }]
      { typeIndex := 0, startTime := 5, duration := 0, payload := [0, 0, 0, 0, 0],
        text := none }
      { message := Message.RangeStart, rangeType := RangeType.Javascript, detailType := 0,
        displayName := String.mk [], data := String.mk [], location := noLocation }
      (by decide)).trans (by decide)⟩

/-- The available features after an operation other than `clear`: `announceFeatures`
adds its mask, every other operation leaves them as they are. -/
theorem operation_availableFeatures (op : Operation) (m : QmlProfilerModelManager) :
    (op.run m).d.availableFeatures =
      match op with
      | Operation.announceFeatures features _ _ => m.d.availableFeatures ||| features
      | _ => m.d.availableFeatures := by
  cases op <;>
    simp [Operation.run, announceFeatures_d, setVisibleFeatures_d, setRecordedFeatures_d,
      startAcquiring, setState_d, AddQmlEventCall.run, addQmlEvent_d, acquiringDone,
      processingDone, softAssert_d, observe]
  case addDebugMessage timestamp messageType text location =>
    unfold addDebugMessage
    split_ifs <;> rfl

/-- Claim C18: `availableFeatures` is monotone.  For every manager and every operation
other than `clear` (`announceFeatures`, `setVisibleFeatures`, `setRecordedFeatures`,
`startAcquiring`, `addQmlEvent`, `addDebugMessage`, `acquiringDone`, `processingDone`),
every bit set in `availableFeatures` before the operation is still set after it. -/
theorem availableFeatures_monotone (op : Operation) (m : QmlProfilerModelManager)
    (i : Nat) (h : m.d.availableFeatures.testBit i = true) :
    (op.run m).d.availableFeatures.testBit i = true := by
  rw [operation_availableFeatures]
  cases op <;> simp [Nat.testBit_or, h]

/-- Witness of claim C18: bit 0, set by the announcement of mask 1, is still set after
the announcement of mask 2 and after `setVisibleFeatures(0)`. -/
theorem availableFeatures_monotone_witness :
    announcedManager.d.availableFeatures.testBit 0 = true ∧
    ((Operation.announceFeatures 2 1 1).run announcedManager).d.availableFeatures.testBit 0
      = true ∧
    ((Operation.setVisibleFeatures 0).run announcedManager).d.availableFeatures.testBit 0
      = true :=
  ⟨by decide,
    availableFeatures_monotone (Operation.announceFeatures 2 1 1) announcedManager 0
      (by decide),
    availableFeatures_monotone (Operation.setVisibleFeatures 0) announcedManager 0
      (by decide)⟩

/-! ### Claims C19 and C20: `acquiringDone` and the reader error of `load` -/

/-- Claim C19 is false as stated: `acquiringDone` on a manager in state `Empty` that
holds the events starting at 5 and 1 is refused the transition, so that the state is
`Empty` at the moment `processData()` is called, and `processData()` runs all the same:
it leaves the events sorted. -/
theorem processData_outside_processing :
    strayEventsManager.d.state = State.Empty ∧
    strayEventsManager.d.model.eventList.map (fun e => e.startTime) = [5, 1] ∧
    (acquiringDoneAtProcessData strayEventsManager).d.state = State.Empty ∧
    (strayEventsManager.acquiringDone).d.model.eventList.map (fun e => e.startTime)
      = [1, 5] ∧
    (strayEventsManager.acquiringDone).d.state = State.Empty := by
  decide

/-- Claim C19, amended: `acquiringDone` calls `processData()` of the event store in
every state.  The pipeline state at that moment is `ProcessingData` exactly when the call
is made in `AcquiringData` or in `ProcessingData`; in every other state `setState`
refuses the transition and `processData()` runs with the pipeline state unchanged. -/
theorem acquiringDone_processData (m : QmlProfilerModelManager) :
    m.acquiringDone
      = { acquiringDoneAtProcessData m with
          d := { (acquiringDoneAtProcessData m).d with model := m.d.model.processData } } ∧
    ((acquiringDoneAtProcessData m).d.state = State.ProcessingData ↔
      (m.d.state = State.AcquiringData ∨ m.d.state = State.ProcessingData)) ∧
    (¬ (m.d.state = State.AcquiringData ∨ m.d.state = State.ProcessingData) →
      (acquiringDoneAtProcessData m).d.state = m.d.state) := by
  have hmodel : (acquiringDoneAtProcessData m).d.model = m.d.model := by
    simp [acquiringDoneAtProcessData, setState_d, softAssert_d]
  have hstate : (acquiringDoneAtProcessData m).d.state
      = if m.d.state = State.AcquiringData then State.ProcessingData else m.d.state := by
    simp only [acquiringDoneAtProcessData, setState_state, softAssert_d]
    by_cases h : m.d.state = State.AcquiringData <;> simp [h]
  refine ⟨?_, ?_, ?_⟩
  · rw [← hmodel]
    rfl
  · rw [hstate]
    by_cases h : m.d.state = State.AcquiringData
    · simp [h]
    · simp only [if_neg h]
      constructor
      · intro h1; exact Or.inr h1
      · intro h1
        rcases h1 with h1 | h1
        · exact absurd h1 h
        · exact h1
  · intro h
    rw [hstate, if_neg (fun h1 => h (Or.inl h1))]

/-- Witness of the amended claim C19: in `AcquiringData` the state is `ProcessingData`
when `processData()` is called, and on a finished trace, state `Done`, it is still
`Done`. -/
theorem acquiringDone_processData_witness :
    acquiringManager.d.state = State.AcquiringData ∧
    (acquiringDoneAtProcessData acquiringManager).d.state = State.ProcessingData ∧
    ¬ (doneManager.d.state = State.AcquiringData ∨
        doneManager.d.state = State.ProcessingData) ∧
    (acquiringDoneAtProcessData doneManager).d.state = State.Done :=
  ⟨by decide,
    (acquiringDone_processData acquiringManager).2.1.mpr (Or.inl (by decide)),
    by decide,
    ((acquiringDone_processData doneManager).2.2 (by decide)).trans (by decide)⟩

/-- `setState` emits no `loadFinished`. -/
theorem setState_count_loadFinished (m : QmlProfilerModelManager) (s : State) :
    (m.setState s).observed.count Observation.loadFinished
      = m.observed.count Observation.loadFinished := by
  unfold setState
  cases s <;> simp only [softAssert, storeState, observe] <;> split_ifs <;>
    simp [List.count_append, List.count_cons]

/-- `setVisibleFeatures` emits no `loadFinished`. -/
theorem setVisibleFeatures_count_loadFinished (m : QmlProfilerModelManager)
    (features : Nat) :
    (m.setVisibleFeatures features).observed.count Observation.loadFinished
      = m.observed.count Observation.loadFinished := by
  unfold setVisibleFeatures
  simp only [observe]
  split_ifs <;> simp [List.count_append, List.count_cons]

/-- `setRecordedFeatures` emits no `loadFinished`. -/
theorem setRecordedFeatures_count_loadFinished (m : QmlProfilerModelManager)
    (features : Nat) :
    (m.setRecordedFeatures features).observed.count Observation.loadFinished
      = m.observed.count Observation.loadFinished := by
  unfold setRecordedFeatures
  simp only [observe]
  split_ifs <;> simp [List.count_append, List.count_cons]

/-- `clear` emits no `loadFinished`. -/
theorem clear_count_loadFinished (m : QmlProfilerModelManager) :
    (m.clear).observed.count Observation.loadFinished
      = m.observed.count Observation.loadFinished := by
  unfold clear
  simp only [setState_count_loadFinished, setRecordedFeatures_count_loadFinished,
    setVisibleFeatures_count_loadFinished]

/-- Claim C20 fails on the code.  When the file of a `load` opens and its reader then
reports an error, in whatever state `load` was started, the slot of the manager emits
`error` with the message of the reader as its last signal, but the number of
`loadFinished` emissions is what it was before `load`, and the pipeline state is
`AcquiringData`, where `load` has put it, not `Empty`. -/
theorem load_reader_error (m : QmlProfilerModelManager) (filename message : String) :
    ((m.loadStart filename true).loadReaderError message).observed.getLast?
      = some (Observation.error message) ∧
    ((m.loadStart filename true).loadReaderError message).observed.count
        Observation.loadFinished
      = m.observed.count Observation.loadFinished ∧
    ((m.loadStart filename true).loadReaderError message).d.state = State.AcquiringData ∧
    ((m.loadStart filename true).loadReaderError message).d.state ≠ State.Empty := by
  have hstate : ((m.loadStart filename true).loadReaderError message).d.state
      = State.AcquiringData := by
    simp [loadStart, loadReaderError, observe, setState_state, clear_d]
  refine ⟨?_, ?_, hstate, ?_⟩
  · simp [loadReaderError, observe]
  · simp [loadStart, loadReaderError, observe, List.count_append, List.count_cons,
      setState_count_loadFinished, clear_count_loadFinished]
  · rw [hstate]
    decide

/-! ### Claims C21 to C23: `load` on success, codec tasks, the assertion of `setTime` -/

/-- `setState` emits no `error`, no `loadFinished` and no `saveFinished`. -/
theorem setState_countP_signals (m : QmlProfilerModelManager) (s : State) :
    (m.setState s).observed.countP Observation.isError
      = m.observed.countP Observation.isError ∧
    (m.setState s).observed.countP Observation.isFinished
      = m.observed.countP Observation.isFinished := by
  unfold setState
  cases s <;> simp only [softAssert, storeState, observe] <;> split_ifs <;>
    simp [List.countP_append, List.countP_cons, Observation.isError,
      Observation.isFinished]

/-- `clear` emits no `error`, no `loadFinished` and no `saveFinished`. -/
theorem clear_countP_signals (m : QmlProfilerModelManager) :
    (m.clear).observed.countP Observation.isError
      = m.observed.countP Observation.isError ∧
    (m.clear).observed.countP Observation.isFinished
      = m.observed.countP Observation.isFinished := by
  have hv : ∀ (x : QmlProfilerModelManager) (f : Nat),
      (x.setVisibleFeatures f).observed.countP Observation.isError
        = x.observed.countP Observation.isError ∧
      (x.setVisibleFeatures f).observed.countP Observation.isFinished
        = x.observed.countP Observation.isFinished := by
    intro x f
    unfold setVisibleFeatures
    simp only [observe]
    split_ifs <;>
      simp [List.countP_append, List.countP_cons, Observation.isError,
        Observation.isFinished]
  have hr : ∀ (x : QmlProfilerModelManager) (f : Nat),
      (x.setRecordedFeatures f).observed.countP Observation.isError
        = x.observed.countP Observation.isError ∧
      (x.setRecordedFeatures f).observed.countP Observation.isFinished
        = x.observed.countP Observation.isFinished := by
    intro x f
    unfold setRecordedFeatures
    simp only [observe]
    split_ifs <;>
      simp [List.countP_append, List.countP_cons, Observation.isError,
        Observation.isFinished]
  unfold clear
  simp only [(setState_countP_signals _ _).1, (setState_countP_signals _ _).2,
    (hv _ _).1, (hv _ _).2, (hr _ _).1, (hr _ _).2]
  exact ⟨trivial, trivial⟩

/-- One request: a task is started exactly when the file opens; an `error` and a
finished signal are emitted exactly when it does not. -/
theorem CodecRequest.run_counts (r : CodecRequest) (m : QmlProfilerModelManager) :
    (r.run m).2.length = (if r.fileOpens then 1 else 0) ∧
    (r.run m).1.observed.countP Observation.isError
      = m.observed.countP Observation.isError + (if r.fileOpens then 0 else 1) ∧
    (r.run m).1.observed.countP Observation.isFinished
      = m.observed.countP Observation.isFinished + (if r.fileOpens then 0 else 1) := by
  cases r with
  | save filename opens =>
    cases opens <;>
      simp [CodecRequest.run, CodecRequest.fileOpens, QmlProfilerModelManager.save, observe,
        List.countP_append, List.countP_cons, Observation.isError, Observation.isFinished]
  | load filename opens =>
    cases opens <;>
      simp [CodecRequest.run, CodecRequest.fileOpens, QmlProfilerModelManager.load, loadStart,
        observe, List.countP_append, List.countP_cons, Observation.isError,
        Observation.isFinished, (setState_countP_signals _ _).1,
        (setState_countP_signals _ _).2, (clear_countP_signals _).1,
        (clear_countP_signals _).2]

/-- Claim C22 is false as stated: on a finished trace, `save` issued twice in a row, the
first task not having finished, starts two tasks, and no `error` is emitted: the
observations are what they were before the two calls. -/
theorem second_save_starts_task :
    (runCodecRequests doneManager
        [CodecRequest.save "a.trace" true, CodecRequest.save "a.trace" true]).2.length = 2 ∧
    (runCodecRequests doneManager
        [CodecRequest.save "a.trace" true, CodecRequest.save "a.trace" true]).1.observed
      = doneManager.observed ∧
    (doneManager.observed.countP Observation.isError = 0) := by
  decide

/-- Claim C22, amended: the manager puts no limit on codec tasks.  For every manager and
every sequence of `save` and `load` requests issued while the earlier ones have not
finished, every request whose file opens starts a task of its own, and the only requests
that fail synchronously are those whose file does not open: such a request emits
`error` and then `saveFinished` or `loadFinished`, starts no task and leaves the
private data alone, while a request whose file opens starts exactly one task and emits
neither `error` nor a finished signal. -/
theorem codec_requests_unlimited (reqs : List CodecRequest) (m : QmlProfilerModelManager)
    (filename : String) :
    ((runCodecRequests m reqs).2.length = reqs.countP (fun r => r.fileOpens) ∧
      (runCodecRequests m reqs).1.observed.countP Observation.isError
        = m.observed.countP Observation.isError + reqs.countP (fun r => !r.fileOpens) ∧
      (runCodecRequests m reqs).1.observed.countP Observation.isFinished
        = m.observed.countP Observation.isFinished +
            reqs.countP (fun r => !r.fileOpens)) ∧
    ((m.save filename false).2 = [] ∧
      (m.save filename false).1.d = m.d ∧
      (m.save filename false).1.observed
        = m.observed ++
            [Observation.error (couldNotOpenForWriting filename),
             Observation.saveFinished]) ∧
    ((m.load filename false).2 = [] ∧
      (m.load filename false).1.d = m.d ∧
      (m.load filename false).1.observed
        = m.observed ++
            [Observation.error (couldNotOpenForReading filename),
             Observation.loadFinished]) ∧
    ((m.save filename true).2.length = 1 ∧
      (m.save filename true).1.observed = m.observed) ∧
    ((m.load filename true).2 = [CodecTask.load filename] ∧
      (m.load filename true).1.d.state = State.AcquiringData ∧
      (m.load filename true).1.observed.countP Observation.isError
        = m.observed.countP Observation.isError ∧
      (m.load filename true).1.observed.countP Observation.isFinished
        = m.observed.countP Observation.isFinished) := by
  refine ⟨?_, ?_, ?_, ?_, ?_⟩
  · clear filename
    induction reqs generalizing m with
    | nil => simp [runCodecRequests]
    | cons r rest ih =>
      obtain ⟨h1, h2, h3⟩ := CodecRequest.run_counts r m
      obtain ⟨i1, i2, i3⟩ := ih (r.run m).1
      simp only [runCodecRequests, List.length_append, List.countP_cons]
      rw [h1, i1, i2, i3, h2, h3]
      cases r.fileOpens <;> simp <;> omega
  · simp [QmlProfilerModelManager.save, observe]
  · simp [QmlProfilerModelManager.load, loadStart, observe]
  · simp [QmlProfilerModelManager.save]
  · simp [QmlProfilerModelManager.load, loadStart, setState_state, clear_d,
      (setState_countP_signals _ _).1, (setState_countP_signals _ _).2,
      (clear_countP_signals _).1, (clear_countP_signals _).2]

/-- Claim C23 is false as stated: the window `[-1, 2^63 - 1]` satisfies the invariant
and its start is `-1`; its `duration()` wraps to `-2^63`, so that for the event start
time 5 the addition `5 + duration()` does not overflow, and the call
`setTime(5, 5 + duration())` has its first argument above its second: the assertion of
`setTime` is violated, and a release build leaves the inverted window. -/
theorem bootstrap_assertion_violated :
    QmlProfilerTraceTime.invariant { m_startTime := -1, m_endTime := maxQint64 } ∧
    isQint64 maxQint64 ∧
    isQint64 5 ∧
    QmlProfilerTraceTime.duration { m_startTime := -1, m_endTime := maxQint64 }
      = -(2 ^ 63) ∧
    isQint64 (5 + QmlProfilerTraceTime.duration { m_startTime := -1, m_endTime := maxQint64 }) ∧
    QmlProfilerTraceTime.setTimeAssertion 5
        (wrapQint64
          (5 + QmlProfilerTraceTime.duration { m_startTime := -1, m_endTime := maxQint64 }))
      = false ∧
    QmlProfilerTraceTime.setTime { m_startTime := -1, m_endTime := maxQint64 } 5
        (wrapQint64
          (5 + QmlProfilerTraceTime.duration { m_startTime := -1, m_endTime := maxQint64 }))
      = { m_startTime := 5, m_endTime := 5 - 2 ^ 63 } := by
  decide

/-- Claim C23, amended: the assertion of `setTime` is not violated by the bootstrap of
`addQmlEvent` as long as the exact sum fits.  For every trace window that satisfies the
invariant and whose start is `-1`, and every event start time `t` for which the sum of
`t` and of `end - start` is representable as a signed 64-bit integer, which is the case
whenever neither `duration()` nor the addition `t + duration()` overflows, the call
`setTime(t, t + duration())` that `addQmlEvent` makes has its first argument below or
equal to its second, so that the builds with and without assertions agree on it, and
on the cleared window it produces exactly `[t, t]`. -/
theorem bootstrap_assertion_holds (m : QmlProfilerModelManager) (message : Message)
    (rangeType : RangeType) (detailType startTime length : Int) (data : String)
    (location : QmlEventLocation) (ndata1 ndata2 ndata3 ndata4 ndata5 : Int)
    (hinv : m.d.traceTime.invariant)
    (hstart : m.d.traceTime.m_startTime = -1)
    (hsum : isQint64 (startTime + (m.d.traceTime.m_endTime - m.d.traceTime.m_startTime))) :
    QmlProfilerTraceTime.setTimeAssertion startTime
        (wrapQint64 (startTime + m.d.traceTime.duration)) = true ∧
    startTime ≤ wrapQint64 (startTime + m.d.traceTime.duration) ∧
    m.d.traceTime.setTimeWithAssertions startTime
        (wrapQint64 (startTime + m.d.traceTime.duration))
      = some (m.addQmlEvent message rangeType detailType startTime length data location
          ndata1 ndata2 ndata3 ndata4 ndata5).d.traceTime ∧
    (m.d.traceTime = { m_startTime := -1, m_endTime := -1 } →
      (m.addQmlEvent message rangeType detailType startTime length data location
          ndata1 ndata2 ndata3 ndata4 ndata5).d.traceTime
        = { m_startTime := startTime, m_endTime := startTime }) := by
  have hle : startTime ≤ wrapQint64 (startTime + m.d.traceTime.duration) := by
    have hend : -1 ≤ m.d.traceTime.m_endTime := by
      rcases hinv with h | h
      · omega
      · omega
    simp only [QmlProfilerTraceTime.duration, QmlProfilerTraceTime.endTime,
      QmlProfilerTraceTime.startTime, hstart] at hsum ⊢
    unfold isQint64 at hsum
    unfold wrapQint64
    omega
  have hassert : QmlProfilerTraceTime.setTimeAssertion startTime
      (wrapQint64 (startTime + m.d.traceTime.duration)) = true := by
    simp [QmlProfilerTraceTime.setTimeAssertion, hle]
  refine ⟨hassert, hle, ?_, ?_⟩
  · simp [QmlProfilerTraceTime.setTimeWithAssertions, hassert, addQmlEvent_d, hstart,
      setTime_eq]
  · intro hw
    have hq : isQint64 startTime := by
      rw [hw] at hsum
      simpa using hsum
    have h0 : wrapQint64 0 = 0 := by decide
    rw [addQmlEvent_d, if_pos hstart, hw]
    simp [QmlProfilerTraceTime.duration, QmlProfilerTraceTime.endTime,
      QmlProfilerTraceTime.startTime, h0, wrapQint64_of_isQint64 _ hq]

/-- Witness of the amended claim C23: on the window `[-1, 5]`, which satisfies the invariant, the
event that starts at 10 makes the call `setTime(10, 16)`, and on the cleared window of
a manager in `AcquiringData` the event that starts at 5 leaves `[5, 5]`. -/
theorem bootstrap_assertion_holds_witness :
    QmlProfilerTraceTime.invariant { m_startTime := -1, m_endTime := 5 } ∧
    isQint64 ((10 : Int) + (5 - (-1))) ∧
    (10 : Int) ≤
      wrapQint64 (10 + QmlProfilerTraceTime.duration { m_startTime := -1, m_endTime := 5 }) ∧
    acquiringManager.d.traceTime.invariant ∧
    acquiringManager.d.traceTime = { m_startTime := -1, m_endTime := -1 } ∧
    ((rangeEventAt 5).run acquiringManager).d.traceTime
      = { m_startTime := 5, m_endTime := 5 } :=
  ⟨by decide, by decide,
    (bootstrap_assertion_holds
      { QmlProfilerModelManager.create with
        d := { QmlProfilerModelManager.create.d with
          traceTime := { m_startTime := -1, m_endTime := 5 } } }
      Message.RangeStart RangeType.Javascript 0 10 0 (String.mk []) noLocation 0 0 0 0 0
      (by decide) (by decide) (by decide)).2.1,
    by decide, by decide,
    (bootstrap_assertion_holds acquiringManager Message.RangeStart RangeType.Javascript
      0 5 0 (String.mk []) noLocation 0 0 0 0 0 (by decide) (by decide) (by decide)).2.2.2
      (by decide)⟩

end QmlProfiler
